import Mathlib

/-!
Verification development for the SidelineSignal discovery engine.

The Python sources are shallowly embedded: pure fragments become Lean
functions over `String`, `List`, `ℤ` and `ℚ` (Python float arithmetic is
modelled by exact rational arithmetic; Python `int()` truncation of the
non-negative scores is `Int.floor`); page content parsed by BeautifulSoup
is modelled by a record of the parsed projections the code queries; SQLite
rows become a Lean structure and the table a list of rows; `json.loads`
is modelled by an executable JSON parser over an inductive value type.
Strings handled by the code are ASCII, so Python `str.lower` is modelled
by ASCII lowercasing.
-/

namespace Sideline

/-- Python `needle in hay` membership over character lists. -/
def subList (needle : List Char) : List Char → Bool
  | [] => needle.isEmpty
  | c :: rest => needle.isPrefixOf (c :: rest) || subList needle rest

/-- Python `needle in hay` for strings. -/
def pyIn (needle hay : String) : Bool :=
  subList needle.toList hay.toList

/-- Python `str.lower` on one ASCII character. -/
def lowerChar (c : Char) : Char :=
  if 65 ≤ c.toNat && c.toNat ≤ 90 then Char.ofNat (c.toNat + 32) else c

/-- Python `str.lower` (ASCII model). -/
def lowerStr (s : String) : String := ⟨s.toList.map lowerChar⟩

/-- Python `max` of two comparable values. -/
def pyMax {α : Type} [LinearOrder α] (a b : α) : α := if a < b then b else a

/-- Python `min` of two comparable values. -/
def pyMin {α : Type} [LinearOrder α] (a b : α) : α := if b < a then b else a

theorem pyMax_eq_max {α : Type} [LinearOrder α] (a b : α) : pyMax a b = max a b := by
  rw [pyMax, max_def]
  rcases lt_trichotomy a b with h | h | h
  · rw [if_pos h, if_pos h.le]
  · subst h
    simp
  · rw [if_neg (not_lt.mpr h.le), if_neg (not_le.mpr h)]

theorem pyMin_eq_min {α : Type} [LinearOrder α] (a b : α) : pyMin a b = min a b := by
  rw [pyMin, min_def]
  rcases lt_trichotomy a b with h | h | h
  · rw [if_neg (not_lt.mpr h.le), if_pos h.le]
  · subst h
    simp
  · rw [if_pos h, if_neg (not_le.mpr h)]

/-! ## Relevance scorer (`spider/spiders/scout.py`, `ScoutSpider._calculate_relevancy_score`)
and its V3 revision (`spider/spiders/streaming_spider.py`). -/

/-- `streaming_keywords` of `_calculate_relevancy_score` (identical in both revisions). -/
def streaming_keywords : List String :=
  ["live", "stream", "watch", "tv", "video", "player", "free"]

/-- `sports_keywords` of `_calculate_relevancy_score` (identical in both revisions). -/
def sports_keywords : List String :=
  ["nfl", "nba", "nhl", "mlb", "soccer", "football", "basketball", "sports"]

/-- `negative_indicators` of the V4 spider's `_calculate_relevancy_score`. -/
def negative_indicators_v4 : List String :=
  ["privacy", "terms", "contact", "about", "dmca", "legal", "cookie"]

/-- `negative_indicators` of the V3 spider's `_calculate_relevancy_score`. -/
def negative_indicators_v3 : List String :=
  ["privacy", "terms", "contact", "about", "dmca", "legal"]

/-- `ScoutSpider._calculate_relevancy_score` (V4 spider, `spider/spiders/scout.py`).
A `None` anchor text is modelled by `""` (the code lowercases falsy anchors to `""`). -/
def calcRelevancyScoreV4 (link_text url : String) : ℚ :=
  let text_lower := lowerStr link_text
  let url_lower := lowerStr url
  let s0 : ℚ := 0
  let s1 := streaming_keywords.foldl (fun s k => if pyIn k text_lower then s + 3/10 else s) s0
  let s2 := sports_keywords.foldl (fun s k => if pyIn k text_lower then s + 2/10 else s) s1
  let s3 := streaming_keywords.foldl (fun s k => if pyIn k url_lower then s + 2/10 else s) s2
  let s4 := sports_keywords.foldl (fun s k => if pyIn k url_lower then s + 15/100 else s) s3
  let s5 := if (["live", "stream", "watch"].any fun k => pyIn k url_lower) then s4 + 1/10 else s4
  let s6 := negative_indicators_v4.foldl
    (fun s k => if pyIn k url_lower || pyIn k text_lower then s - 5/10 else s) s5
  pyMax 0 (pyMin 1 s6)

/-- `StreamingSiteSpider._calculate_relevancy_score` (V3 spider,
`spider/spiders/streaming_spider.py`); identical except for the negative-indicator list. -/
def calcRelevancyScoreV3 (link_text url : String) : ℚ :=
  let text_lower := lowerStr link_text
  let url_lower := lowerStr url
  let s0 : ℚ := 0
  let s1 := streaming_keywords.foldl (fun s k => if pyIn k text_lower then s + 3/10 else s) s0
  let s2 := sports_keywords.foldl (fun s k => if pyIn k text_lower then s + 2/10 else s) s1
  let s3 := streaming_keywords.foldl (fun s k => if pyIn k url_lower then s + 2/10 else s) s2
  let s4 := sports_keywords.foldl (fun s k => if pyIn k url_lower then s + 15/100 else s) s3
  let s5 := if (["live", "stream", "watch"].any fun k => pyIn k url_lower) then s4 + 1/10 else s4
  let s6 := negative_indicators_v3.foldl
    (fun s k => if pyIn k url_lower || pyIn k text_lower then s - 5/10 else s) s5
  pyMax 0 (pyMin 1 s6)

/-- Number of keywords from `kws` found in `text`. -/
def countHits (kws : List String) (text : String) : Nat :=
  (kws.filter fun k => pyIn k text).length

/-- The relevance score exactly as the specification phrases it: +0.3 / +0.2 per
streaming / sports keyword in the anchor text, +0.2 / +0.15 per the same keyword sets
in the URL, +0.1 when the URL contains one of live/stream/watch, −0.5 per negative
indicator found in either, clamped to `[0, 1]`. -/
def relevancyScoreSpec (anchor url : String) : ℚ :=
  let t := lowerStr anchor
  let u := lowerStr url
  let raw : ℚ :=
    (3/10) * countHits streaming_keywords t
    + (2/10) * countHits sports_keywords t
    + (2/10) * countHits streaming_keywords u
    + (15/100) * countHits sports_keywords u
    + (if (["live", "stream", "watch"].any fun k => pyIn k u) then 1/10 else 0)
    - (5/10) * ((negative_indicators_v4.filter fun k => pyIn k u || pyIn k t).length : ℚ)
  max 0 (min 1 raw)

theorem foldl_add_count (kws : List String) (p : String → Bool) (w acc : ℚ) :
    kws.foldl (fun s k => if p k then s + w else s) acc
      = acc + w * ((kws.filter p).length : ℚ) := by
  induction kws generalizing acc with
  | nil => simp
  | cons k ks ih =>
    by_cases h : p k
    · simp only [List.foldl_cons, h, if_true, ih, List.filter_cons, List.length_cons]
      push_cast
      ring
    · simp only [List.foldl_cons, h, if_false, ih, List.filter_cons, Bool.false_eq_true]

theorem foldl_sub_count (kws : List String) (p : String → Bool) (w acc : ℚ) :
    kws.foldl (fun s k => if p k then s - w else s) acc
      = acc - w * ((kws.filter p).length : ℚ) := by
  induction kws generalizing acc with
  | nil => simp
  | cons k ks ih =>
    by_cases h : p k
    · simp only [List.foldl_cons, h, if_true, ih, List.filter_cons, List.length_cons]
      push_cast
      ring
    · simp only [List.foldl_cons, h, if_false, ih, List.filter_cons, Bool.false_eq_true]

/-- Claim C9: for every pair (anchor text, url) the V4 relevance score adds +0.3 per
streaming keyword and +0.2 per sports keyword in the anchor text, +0.2 and +0.15 for the
same sets in the URL, a +0.1 bonus when the URL contains live/stream/watch, subtracts 0.5
per negative indicator (privacy, terms, contact, about, dmca, legal, cookie) found in
either, and clamps the result to [0, 1]. -/
theorem claim_C9_relevancy_score (anchor url : String) :
    calcRelevancyScoreV4 anchor url = relevancyScoreSpec anchor url := by
  unfold calcRelevancyScoreV4 relevancyScoreSpec countHits
  simp only [foldl_add_count, foldl_sub_count, pyMax_eq_max, pyMin_eq_min]
  split_ifs with h
  · ring_nf
  · ring_nf

/-- Claim C10 counterexample: the V3 and V4 revisions of the relevance scorer differ
at anchor text `"cookie watch live stream"` and URL `"https://example.org"` — the V3
copy scores 0.9 while the V4 copy (which also penalises `cookie`) scores 0.4. -/
theorem claim_C10_counterexample :
    calcRelevancyScoreV3 "cookie watch live stream" "https://example.org" = 9/10
    ∧ calcRelevancyScoreV4 "cookie watch live stream" "https://example.org" = 4/10
    ∧ calcRelevancyScoreV3 "cookie watch live stream" "https://example.org"
        ≠ calcRelevancyScoreV4 "cookie watch live stream" "https://example.org" := by
  refine ⟨?_, ?_, ?_⟩
  · simp +decide [calcRelevancyScoreV3, streaming_keywords, sports_keywords,
      negative_indicators_v3, pyMax, pyMin]
    norm_num
  · simp +decide [calcRelevancyScoreV4, streaming_keywords, sports_keywords,
      negative_indicators_v4, pyMax, pyMin]
    norm_num
  · intro h
    rw [show calcRelevancyScoreV3 "cookie watch live stream" "https://example.org" = 9/10 by
        simp +decide [calcRelevancyScoreV3, streaming_keywords, sports_keywords,
          negative_indicators_v3, pyMax, pyMin]
        norm_num,
      show calcRelevancyScoreV4 "cookie watch live stream" "https://example.org" = 4/10 by
        simp +decide [calcRelevancyScoreV4, streaming_keywords, sports_keywords,
          negative_indicators_v4, pyMax, pyMin]
        norm_num] at h
    norm_num at h

/-- Claim C10 (amended): the V3 and V4 revisions of the relevance scorer agree on every
pair whose lowercased anchor text and URL both avoid the substring `cookie` (the only
difference between the two copies is that V4 adds `cookie` to the negative indicators);
on inputs containing `cookie` they can differ. -/
theorem claim_C10_scorers_agree_without_cookie (anchor url : String)
    (ht : pyIn "cookie" (lowerStr anchor) = false)
    (hu : pyIn "cookie" (lowerStr url) = false) :
    calcRelevancyScoreV3 anchor url = calcRelevancyScoreV4 anchor url := by
  unfold calcRelevancyScoreV3 calcRelevancyScoreV4
  simp only [negative_indicators_v3, negative_indicators_v4, List.foldl_cons, List.foldl_nil,
    hu, ht, Bool.or_self, if_false, Bool.false_eq_true]

/-- Claim C10 witness: the agreement theorem applied at a concrete cookie-free input. -/
theorem claim_C10_witness :
    calcRelevancyScoreV3 "watch live" "https://example.org"
      = calcRelevancyScoreV4 "watch live" "https://example.org" :=
  claim_C10_scorers_agree_without_cookie "watch live" "https://example.org"
    (by decide) (by decide)

/-! ## Technical verifier (`verification.py`)

Page content parsed by BeautifulSoup is modelled by `Doc`, a record of the
parsed projections the verifier queries: title text, meta description (the
empty string when absent), the number of `<video>` elements, the (lowercased
later) `src` attributes of iframes, the `<div>` elements' `id`/`class`
attributes, the `<table>` elements' class lists, the non-null `script.string`
texts, and the raw HTML. -/

/-- A `<div>` element's attributes as queried by `_fingerprint_dom_from_html`. -/
structure DivInfo where
  idAttr : Option String
  classes : List String

/-- A parsed HTML document: the BeautifulSoup projections used by the verifier. -/
structure Doc where
  title : String
  metaDescription : String
  videoCount : Nat
  iframeSrcs : List String
  divs : List DivInfo
  tableClasses : List (List String)
  scriptTexts : List String
  rawHtml : String

/-- `streaming_keywords` with weights of `_analyze_content_from_html`
(Python dict iteration is insertion-ordered). -/
def content_streaming_keywords : List (String × ℤ) :=
  [("stream", 25), ("watch", 25), ("live", 20), ("movie", 20), ("tv", 20), ("sport", 20),
   ("free", 15), ("online", 15), ("hd", 10), ("video", 15), ("player", 15), ("schedule", 20),
   ("games", 15), ("nfl", 15), ("nba", 15), ("soccer", 15), ("football", 15), ("nhl", 15),
   ("mlb", 15), ("ufc", 15), ("boxing", 15), ("tennis", 15), ("basketball", 15)]

/-- Python `\s` character class (ASCII part). -/
def pySpace (c : Char) : Bool :=
  c = ' ' || c = '\t' || c = '\n' || c = '\r' || c = Char.ofNat 11 || c = Char.ofNat 12

/-- After one mandatory whitespace character, skip further whitespace and then
require `w`: the `\s+w` tail of a two-word regex. -/
def spacesThenWord (w : List Char) : List Char → Bool
  | [] => false
  | c :: rest => pySpace c && (w.isPrefixOf rest || spacesThenWord w rest)

/-- `re.search(r'w1\s+w2', s)`: some position starts `w1`, then one or more
whitespace characters, then `w2`. -/
def twoWordSearch (w1 w2 : List Char) : List Char → Bool
  | [] => false
  | c :: rest =>
      (w1.isPrefixOf (c :: rest) && spacesThenWord w2 ((c :: rest).drop w1.length))
        || twoWordSearch w1 w2 rest

/-- One of the `streaming_patterns` regexes of `_analyze_content_from_html`:
either `w1\s+w2` or a bare word. -/
inductive CPattern where
  | two (w1 w2 : String)
  | single (w : String)

/-- `streaming_patterns` of `_analyze_content_from_html`. -/
def streaming_patterns : List CPattern :=
  [.two "live" "stream", .two "watch" "online", .two "free" "stream",
   .two "hd" "quality", .two "no" "ads", .single "schedule", .single "fixtures"]

/-- `re.search(pattern, text)` for a `streaming_patterns` entry (the text is
already lowercased, so `re.IGNORECASE` is immaterial). -/
def cpMatch : CPattern → String → Bool
  | .two a b, s => twoWordSearch a.toList b.toList s.toList
  | .single w, s => pyIn w s

/-- The indicator suffix `pattern.replace('\\s+', '_')`. -/
def cpName : CPattern → String
  | .two a b => a ++ "_" ++ b
  | .single w => w

/-- Result record of `_analyze_content_from_html` / `analyze_content`. -/
structure ContentResult where
  success : Bool
  confidence_score : ℤ
  indicators : List String
  title : Option String
deriving DecidableEq

/-- The keyword loop of `_analyze_content_from_html`: append `keyword_…` indicators and
add the keyword weights. -/
def contentKwFold (content_text : String) (acc : List String × ℤ) : List String × ℤ :=
  content_streaming_keywords.foldl
    (fun acc p => if pyIn p.1 content_text then (acc.1 ++ ["keyword_" ++ p.1], acc.2 + p.2) else acc)
    acc

/-- The multiple-indicator bonuses of `_analyze_content_from_html` (+15 above three
indicators, a further +10 above six). -/
def contentBonuses (acc : List String × ℤ) : List String × ℤ :=
  let s₂ := if 3 < acc.1.length then acc.2 + 15 else acc.2
  let s₃ := if 6 < acc.1.length then s₂ + 10 else s₂
  (acc.1, s₃)

/-- The pattern loop of `_analyze_content_from_html`: +10 per matched regex. -/
def contentPatFold (content_text : String) (acc : List String × ℤ) : List String × ℤ :=
  streaming_patterns.foldl
    (fun acc p => if cpMatch p content_text then (acc.1 ++ ["pattern_" ++ cpName p], acc.2 + 10) else acc)
    acc

/-- `content_text` of `_analyze_content_from_html`: lowercased title plus meta description. -/
def contentTextOf (d : Doc) : String := lowerStr (d.title ++ " " ++ d.metaDescription)

/-- `_analyze_content_from_html` (`verification.py`). -/
def analyzeContentFromHtml (d : Doc) : ContentResult :=
  let r := contentPatFold (contentTextOf d) (contentBonuses (contentKwFold (contentTextOf d) ([], 10)))
  { success := true, confidence_score := r.2, indicators := r.1, title := some d.title }

/-- `analyze_content`: a failed page fetch (`none`) yields the error record. -/
def analyzeContent : Option Doc → ContentResult
  | some d => analyzeContentFromHtml d
  | none => { success := false, confidence_score := 0, indicators := [], title := none }

/-- Result record of `_fingerprint_dom_from_html` / `fingerprint_dom`. -/
structure DomResult where
  success : Bool
  confidence_score : ℤ
  structural_indicators : List String
deriving DecidableEq

/-- `streaming_selectors` of `_fingerprint_dom_from_html` as (attribute, value) pairs. -/
def streaming_selectors : List (String × String) :=
  [("id", "player"), ("id", "video-player"), ("id", "stream"), ("id", "live-stream"),
   ("id", "schedule"), ("id", "games"), ("id", "matches"), ("id", "fixtures"),
   ("id", "video-container"), ("id", "player-container"),
   ("class", "player"), ("class", "video-player"), ("class", "stream"),
   ("class", "live-stream"), ("class", "schedule"), ("class", "games"),
   ("class", "matches"), ("class", "fixtures"), ("class", "video-container")]

/-- `soup.find_all('div', selector)` is non-empty: exact `id` match, or the class
value among the div's classes. -/
def selectorMatches (d : Doc) (sel : String × String) : Bool :=
  if sel.1 = "id" then d.divs.any fun dv => dv.idAttr = some sel.2
  else d.divs.any fun dv => dv.classes.contains sel.2

/-- `streaming_script_patterns` of `_fingerprint_dom_from_html`. -/
def streaming_script_patterns : List String :=
  ["player", "video", "stream", "jwplayer", "hls", "videojs", "flowplayer", "plyr", "m3u8"]

/-- `streaming_meta_patterns` with the indicator names the code derives from them. -/
def streaming_meta_patterns : List (String × String) :=
  [("property=\"og:video\"", "meta_property"), ("property=\"twitter:player\"", "meta_property"),
   ("name=\"twitter:player\"", "meta_name"), ("property=\"video\"", "meta_property")]

/-- `platform_indicators` of `_fingerprint_dom_from_html`. -/
def platform_indicators : List String :=
  ["jwplayer", "videojs", "hls.js", "dashjs", "flowplayer", "plyr", "clappr", "video.js",
   "bitmovin"]

/-- Video-tag scoring of `_fingerprint_dom_from_html`: +40 when any `<video>` is present. -/
def domVideoStep (d : Doc) (acc : List String × ℤ) : List String × ℤ :=
  if 0 < d.videoCount then (acc.1 ++ ["video_tags_" ++ toString d.videoCount], acc.2 + 40)
  else acc

/-- Iframe scoring of `_fingerprint_dom_from_html`: +35 when iframes are present, a further
+25 when some iframe `src` carries a streaming keyword. -/
def domIframeStep (d : Doc) (acc : List String × ℤ) : List String × ℤ :=
  if d.iframeSrcs.isEmpty then acc
  else
    let base := (acc.1 ++ ["iframes_" ++ toString d.iframeSrcs.length], acc.2 + 35)
    if d.iframeSrcs.any (fun src =>
        ["player", "stream", "video", "embed", "jwplayer"].any fun k => pyIn k (lowerStr src))
    then (base.1 ++ ["streaming_iframe"], base.2 + 25) else base

/-- Selector loop of `_fingerprint_dom_from_html`: +15 per matched id/class selector. -/
def domSelectorStep (d : Doc) (acc : List String × ℤ) : List String × ℤ :=
  streaming_selectors.foldl
    (fun acc sel => if selectorMatches d sel
      then (acc.1 ++ [sel.1 ++ "_" ++ sel.2], acc.2 + 15) else acc) acc

/-- Script loop of `_fingerprint_dom_from_html`: +20 per script mentioning a player stack
(first matching pattern named, then the inner loop breaks). -/
def domScriptStep (d : Doc) (acc : List String × ℤ) : List String × ℤ :=
  d.scriptTexts.foldl
    (fun acc s => if s ≠ "" then
        match streaming_script_patterns.find? (fun p => pyIn p (lowerStr s)) with
        | some p => (acc.1 ++ ["streaming_script_" ++ p], acc.2 + 20)
        | none => acc
      else acc) acc

/-- Schedule-div detection of `_fingerprint_dom_from_html`: +25. -/
def domScheduleStep (d : Doc) (acc : List String × ℤ) : List String × ℤ :=
  if d.divs.any (fun dv => dv.classes.any fun c => pyIn "schedule" (lowerStr c))
  then (acc.1 ++ ["schedule_div"], acc.2 + 25) else acc

/-- Games-table detection of `_fingerprint_dom_from_html`: +25. -/
def domTableStep (d : Doc) (acc : List String × ℤ) : List String × ℤ :=
  if d.tableClasses.any (fun cls => cls.any fun c =>
      pyIn "games" (lowerStr c) || pyIn "matches" (lowerStr c) || pyIn "fixtures" (lowerStr c))
  then (acc.1 ++ ["games_table"], acc.2 + 25) else acc

/-- Meta-tag loop of `_fingerprint_dom_from_html`: +15 per streaming meta pattern. -/
def domMetaStep (d : Doc) (acc : List String × ℤ) : List String × ℤ :=
  streaming_meta_patterns.foldl
    (fun acc p => if pyIn p.1 (lowerStr d.rawHtml) then (acc.1 ++ [p.2], acc.2 + 15) else acc) acc

/-- Platform-indicator loop of `_fingerprint_dom_from_html`: +10 per known player platform. -/
def domPlatformStep (d : Doc) (acc : List String × ℤ) : List String × ℤ :=
  platform_indicators.foldl
    (fun acc p => if pyIn p (lowerStr d.rawHtml)
      then (acc.1 ++ ["platform_" ++ p], acc.2 + 10) else acc) acc

/-- `_fingerprint_dom_from_html` (`verification.py`): the eight scoring stages in the
order the code runs them. -/
def fingerprintDomFromHtml (d : Doc) : DomResult :=
  let r := domPlatformStep d (domMetaStep d (domTableStep d (domScheduleStep d
    (domScriptStep d (domSelectorStep d (domIframeStep d (domVideoStep d ([], 0))))))))
  { success := true, confidence_score := r.2, structural_indicators := r.1 }

/-- `fingerprint_dom`: a failed page fetch (`none`) yields the error record. -/
def fingerprintDom : Option Doc → DomResult
  | some d => fingerprintDomFromHtml d
  | none => { success := false, confidence_score := 0, structural_indicators := [] }

/-- The network outcome of `requests.get`: a final status code, or a request exception. -/
inductive NetResult where
  | ok (status : Nat)
  | err (msg : String)

/-- Result record of `probe_reachability`. -/
structure ProbeResult where
  success : Bool
  status_code : Nat

/-- `probe_reachability` (`verification.py`): success iff the final status is in `[200, 400)`. -/
def probeReachability : NetResult → ProbeResult
  | .ok sc => { success := decide (200 ≤ sc) && decide (sc < 400), status_code := sc }
  | .err _ => { success := false, status_code := 0 }

/-- Python `int()` on a float/rational: truncation toward zero. -/
def pyInt (q : ℚ) : ℤ := if q < 0 then ⌈q⌉ else ⌊q⌋

/-- Result record of `verify_url`. -/
structure VerificationResult where
  passed : Bool
  overall_confidence : ℤ
  probe : ProbeResult
  content_analysis : Option ContentResult
  dom_fingerprint : Option DomResult

/-- `content_score` of `verify_url`: zero when the content stage failed. -/
def contentScoreOf (contentFetch : Option Doc) : ℤ :=
  if (analyzeContent contentFetch).success then (analyzeContent contentFetch).confidence_score
  else 0

/-- `dom_score` of `verify_url`: zero when the DOM stage failed. -/
def domScoreOf (domFetch : Option Doc) : ℤ :=
  if (fingerprintDom domFetch).success then (fingerprintDom domFetch).confidence_score else 0

/-- `bonus_points` of `verify_url`: +10 for more than five content indicators, +15 when a
`video_tags` indicator is present (the code tests `'video_tags' in str(list)`, i.e. some
indicator contains that substring), +10 for a `streaming_iframe` indicator. -/
def bonusPoints (c : ContentResult) (dm : DomResult) : ℤ :=
  let b₁ : ℤ := if c.success && !c.indicators.isEmpty && decide (5 < c.indicators.length)
    then 10 else 0
  let b₂ : ℤ := if dm.success && !dm.structural_indicators.isEmpty
      && dm.structural_indicators.any (fun s => pyIn "video_tags" s) then 15 else 0
  let b₃ : ℤ := if dm.success && !dm.structural_indicators.isEmpty
      && dm.structural_indicators.contains "streaming_iframe" then 10 else 0
  b₁ + b₂ + b₃

/-- `verify_url` (`verification.py`): reachability probe, then content analysis and DOM
fingerprint (each stage's independent page fetch is an `Option Doc`), combined as
`min(int(10 + 0.25·content + 0.65·dom + bonus), 100)`; a failed probe short-circuits. -/
def verifyUrl (net : NetResult) (contentFetch domFetch : Option Doc) : VerificationResult :=
  let probe := probeReachability net
  if probe.success then
    let c := analyzeContent contentFetch
    let dm := fingerprintDom domFetch
    let bonus := bonusPoints c dm
    let overallQ : ℚ :=
      10 + (contentScoreOf contentFetch : ℚ) * (25/100) + (domScoreOf domFetch : ℚ) * (65/100)
        + (bonus : ℚ)
    { passed := false, overall_confidence := pyMin (pyInt overallQ) 100, probe := probe,
      content_analysis := some c, dom_fingerprint := some dm }
  else
    { passed := false, overall_confidence := 0, probe := probe,
      content_analysis := none, dom_fingerprint := none }

theorem foldl_snd_mono {α : Type} :
    ∀ (l : List α) (f : List String × ℤ → α → List String × ℤ)
      (_ : ∀ acc, ∀ x ∈ l, acc.2 ≤ (f acc x).2) (init : List String × ℤ),
      init.2 ≤ (l.foldl f init).2
  | [], _, _, _ => le_refl _
  | x :: xs, f, h, init =>
      le_trans (h init x (List.mem_cons_self x xs))
        (foldl_snd_mono xs f (fun acc y hy => h acc y (List.mem_cons_of_mem x hy)) (f init x))

theorem foldl_fix_of_no_hits {α β : Type} :
    ∀ (l : List α) (f : β → α → β) (init : β) (_ : ∀ b, ∀ x ∈ l, f b x = b),
      l.foldl f init = init
  | [], _, _, _ => rfl
  | x :: xs, f, init, h => by
      rw [List.foldl_cons, h init x (List.mem_cons_self x xs)]
      exact foldl_fix_of_no_hits xs f init fun b y hy => h b y (List.mem_cons_of_mem x hy)

theorem contentKwFold_le (t : String) (acc : List String × ℤ) :
    acc.2 ≤ (contentKwFold t acc).2 := by
  refine foldl_snd_mono _ _ (fun a x hx => ?_) acc
  have hw : ∀ p ∈ content_streaming_keywords, (0 : ℤ) ≤ p.2 := by decide
  split
  · have := hw x hx
    dsimp only
    omega
  · exact le_refl _

theorem contentBonuses_le (acc : List String × ℤ) : acc.2 ≤ (contentBonuses acc).2 := by
  unfold contentBonuses
  dsimp only
  split_ifs <;> omega

theorem contentPatFold_le (t : String) (acc : List String × ℤ) :
    acc.2 ≤ (contentPatFold t acc).2 := by
  refine foldl_snd_mono _ _ (fun a x hx => ?_) acc
  split
  · dsimp only
    omega
  · exact le_refl _

theorem analyzeContent_score_ge (d : Doc) : 10 ≤ (analyzeContentFromHtml d).confidence_score :=
  calc (10 : ℤ) = (([], (10 : ℤ)) : List String × ℤ).2 := rfl
    _ ≤ (contentKwFold (contentTextOf d) ([], 10)).2 := contentKwFold_le _ _
    _ ≤ (contentBonuses (contentKwFold (contentTextOf d) ([], 10))).2 := contentBonuses_le _
    _ ≤ (contentPatFold (contentTextOf d)
          (contentBonuses (contentKwFold (contentTextOf d) ([], 10)))).2 := contentPatFold_le _ _

theorem domVideoStep_le (d : Doc) (acc : List String × ℤ) : acc.2 ≤ (domVideoStep d acc).2 := by
  unfold domVideoStep
  split
  · dsimp only
    omega
  · exact le_refl _

theorem domIframeStep_le (d : Doc) (acc : List String × ℤ) : acc.2 ≤ (domIframeStep d acc).2 := by
  unfold domIframeStep
  split
  · exact le_refl _
  · dsimp only
    split
    · dsimp only
      omega
    · dsimp only
      omega

theorem domSelectorStep_le (d : Doc) (acc : List String × ℤ) :
    acc.2 ≤ (domSelectorStep d acc).2 := by
  refine foldl_snd_mono _ _ (fun a x hx => ?_) acc
  split
  · dsimp only
    omega
  · exact le_refl _

theorem domScriptStep_le (d : Doc) (acc : List String × ℤ) : acc.2 ≤ (domScriptStep d acc).2 := by
  refine foldl_snd_mono _ _ (fun a x hx => ?_) acc
  split
  · cases streaming_script_patterns.find? fun p => pyIn p (lowerStr x) with
    | none => exact le_refl _
    | some p =>
      dsimp only
      omega
  · exact le_refl _

theorem domScheduleStep_le (d : Doc) (acc : List String × ℤ) :
    acc.2 ≤ (domScheduleStep d acc).2 := by
  unfold domScheduleStep
  split
  · dsimp only
    omega
  · exact le_refl _

theorem domTableStep_le (d : Doc) (acc : List String × ℤ) : acc.2 ≤ (domTableStep d acc).2 := by
  unfold domTableStep
  split
  · dsimp only
    omega
  · exact le_refl _

theorem domMetaStep_le (d : Doc) (acc : List String × ℤ) : acc.2 ≤ (domMetaStep d acc).2 := by
  refine foldl_snd_mono _ _ (fun a x hx => ?_) acc
  split
  · dsimp only
    omega
  · exact le_refl _

theorem domPlatformStep_le (d : Doc) (acc : List String × ℤ) :
    acc.2 ≤ (domPlatformStep d acc).2 := by
  refine foldl_snd_mono _ _ (fun a x hx => ?_) acc
  split
  · dsimp only
    omega
  · exact le_refl _

theorem fingerprint_score_nonneg (d : Doc) : 0 ≤ (fingerprintDomFromHtml d).confidence_score :=
  calc (0 : ℤ) = (([], (0 : ℤ)) : List String × ℤ).2 := rfl
    _ ≤ (domVideoStep d ([], 0)).2 := domVideoStep_le _ _
    _ ≤ (domIframeStep d (domVideoStep d ([], 0))).2 := domIframeStep_le _ _
    _ ≤ (domSelectorStep d (domIframeStep d (domVideoStep d ([], 0)))).2 := domSelectorStep_le _ _
    _ ≤ (domScriptStep d (domSelectorStep d (domIframeStep d (domVideoStep d ([], 0))))).2 :=
        domScriptStep_le _ _
    _ ≤ (domScheduleStep d (domScriptStep d (domSelectorStep d (domIframeStep d
          (domVideoStep d ([], 0)))))).2 := domScheduleStep_le _ _
    _ ≤ (domTableStep d (domScheduleStep d (domScriptStep d (domSelectorStep d (domIframeStep d
          (domVideoStep d ([], 0))))))).2 := domTableStep_le _ _
    _ ≤ (domMetaStep d (domTableStep d (domScheduleStep d (domScriptStep d (domSelectorStep d
          (domIframeStep d (domVideoStep d ([], 0)))))))).2 := domMetaStep_le _ _
    _ ≤ (domPlatformStep d (domMetaStep d (domTableStep d (domScheduleStep d (domScriptStep d
          (domSelectorStep d (domIframeStep d (domVideoStep d ([], 0))))))))).2 :=
        domPlatformStep_le _ _

theorem contentScoreOf_nonneg (cf : Option Doc) : 0 ≤ contentScoreOf cf := by
  cases cf with
  | none => simp [contentScoreOf, analyzeContent]
  | some d =>
    have hae : analyzeContent (some d) = analyzeContentFromHtml d := rfl
    unfold contentScoreOf
    rw [hae]
    split
    · have := analyzeContent_score_ge d
      omega
    · exact le_refl _

theorem domScoreOf_nonneg (df : Option Doc) : 0 ≤ domScoreOf df := by
  cases df with
  | none => simp [domScoreOf, fingerprintDom]
  | some d =>
    have hfe : fingerprintDom (some d) = fingerprintDomFromHtml d := rfl
    unfold domScoreOf
    rw [hfe]
    split
    · exact fingerprint_score_nonneg d
    · exact le_refl _

theorem bonusPoints_nonneg (c : ContentResult) (dm : DomResult) : 0 ≤ bonusPoints c dm := by
  unfold bonusPoints
  dsimp only
  split_ifs <;> omega

theorem bonusPoints_le (c : ContentResult) (dm : DomResult) : bonusPoints c dm ≤ 35 := by
  unfold bonusPoints
  dsimp only
  split_ifs <;> omega

/-- Claim C1: a failed reachability probe (request exception, or final status outside
[200, 400)) short-circuits `verify_url` with overall confidence 0 and no content or DOM
stage results; a successful probe yields overall confidence
`clamp(int(10 + 0.25·content_score + 0.65·dom_score + bonus), 0, 100)` with the bonus
between 0 and 35, and the result always lands in [0, 100]. -/
theorem claim_C1_verifier_composite (net : NetResult) (cf df : Option Doc) :
    ((probeReachability net).success = false →
      (verifyUrl net cf df).overall_confidence = 0
      ∧ (verifyUrl net cf df).content_analysis = none
      ∧ (verifyUrl net cf df).dom_fingerprint = none)
    ∧ ((probeReachability net).success = true →
      0 ≤ bonusPoints (analyzeContent cf) (fingerprintDom df)
      ∧ bonusPoints (analyzeContent cf) (fingerprintDom df) ≤ 35
      ∧ (verifyUrl net cf df).overall_confidence
          = max 0 (min ⌊(10 : ℚ) + (contentScoreOf cf : ℚ) * (25/100)
              + (domScoreOf df : ℚ) * (65/100)
              + (bonusPoints (analyzeContent cf) (fingerprintDom df) : ℚ)⌋ 100)
      ∧ 0 ≤ (verifyUrl net cf df).overall_confidence
      ∧ (verifyUrl net cf df).overall_confidence ≤ 100) := by
  constructor
  · intro h
    simp [verifyUrl, h]
  · intro h
    have h1 := contentScoreOf_nonneg cf
    have h2 := domScoreOf_nonneg df
    have h3 := bonusPoints_nonneg (analyzeContent cf) (fingerprintDom df)
    have hq : (0 : ℚ) ≤ 10 + (contentScoreOf cf : ℚ) * (25/100)
        + (domScoreOf df : ℚ) * (65/100)
        + (bonusPoints (analyzeContent cf) (fingerprintDom df) : ℚ) := by
      have m1 : (0 : ℚ) ≤ (contentScoreOf cf : ℚ) * (25/100) :=
        mul_nonneg (by exact_mod_cast h1) (by norm_num)
      have m2 : (0 : ℚ) ≤ (domScoreOf df : ℚ) * (65/100) :=
        mul_nonneg (by exact_mod_cast h2) (by norm_num)
      have m3 : (0 : ℚ) ≤ (bonusPoints (analyzeContent cf) (fingerprintDom df) : ℚ) := by
        exact_mod_cast h3
      linarith
    have hfl : (0 : ℤ) ≤ ⌊(10 : ℚ) + (contentScoreOf cf : ℚ) * (25/100)
        + (domScoreOf df : ℚ) * (65/100)
        + (bonusPoints (analyzeContent cf) (fingerprintDom df) : ℚ)⌋ :=
      Int.floor_nonneg.mpr hq
    simp only [verifyUrl, h, if_true]
    refine ⟨h3, bonusPoints_le _ _, ?_, ?_, ?_⟩
    · rw [pyMin_eq_min, pyInt, if_neg (not_lt.mpr hq)]
      rw [eq_comm, max_eq_right]
      exact le_min hfl (by norm_num)
    · rw [pyMin_eq_min, pyInt, if_neg (not_lt.mpr hq)]
      exact le_min hfl (by norm_num)
    · rw [pyMin_eq_min]
      exact min_le_right _ _

/-- Claim C1 witness: both branches of the composite-confidence theorem at concrete
inputs — an unreachable URL gets confidence 0 with no stage results, and a reachable
URL whose stage fetches fail still lands in [0, 100]. -/
theorem claim_C1_witness :
    ((verifyUrl (NetResult.err "connection refused") none none).overall_confidence = 0
      ∧ (verifyUrl (NetResult.err "connection refused") none none).content_analysis = none
      ∧ (verifyUrl (NetResult.err "connection refused") none none).dom_fingerprint = none)
    ∧ (0 ≤ (verifyUrl (NetResult.ok 200) none none).overall_confidence
      ∧ (verifyUrl (NetResult.ok 200) none none).overall_confidence ≤ 100) :=
  ⟨(claim_C1_verifier_composite (NetResult.err "connection refused") none none).1 rfl,
   ((claim_C1_verifier_composite (NetResult.ok 200) none none).2 rfl).2.2.2⟩

/-- A reachable page whose HTML is a bare document with exactly one `<video>` element:
no iframes, no divs/tables, no scripts, empty title and meta description, no streaming
keywords anywhere. -/
def sampleVideoDoc : Doc :=
  { title := "", metaDescription := "", videoCount := 1, iframeSrcs := [], divs := [],
    tableClasses := [], scriptTexts := [],
    rawHtml := "<html><body><video></video></body></html>" }

/-- Claim C3 counterexample: for the one-`<video>` keyword-free page the DOM score is
indeed 40, but the composite confidence is 53 (= int(10 + 0.25·10 + 0.65·40 + 15): the
content stage contributes its base score 10 and the `video_tags` indicator adds a +15
bonus), not 36, so the page is admitted at the default threshold 50, not rejected. -/
theorem claim_C3_counterexample :
    (fingerprintDomFromHtml sampleVideoDoc).confidence_score = 40
    ∧ (verifyUrl (NetResult.ok 200) (some sampleVideoDoc)
        (some sampleVideoDoc)).overall_confidence = 53
    ∧ (verifyUrl (NetResult.ok 200) (some sampleVideoDoc)
        (some sampleVideoDoc)).overall_confidence ≠ 36
    ∧ ¬ ((verifyUrl (NetResult.ok 200) (some sampleVideoDoc)
        (some sampleVideoDoc)).overall_confidence < 50) := by
  have hcs : contentScoreOf (some sampleVideoDoc) = 10 := by decide
  have hds : domScoreOf (some sampleVideoDoc) = 40 := by decide
  have hb : bonusPoints (analyzeContent (some sampleVideoDoc))
      (fingerprintDom (some sampleVideoDoc)) = 15 := by decide
  have hprobe : (probeReachability (NetResult.ok 200)).success = true := rfl
  have hov : (verifyUrl (NetResult.ok 200) (some sampleVideoDoc)
      (some sampleVideoDoc)).overall_confidence = 53 := by
    simp only [verifyUrl, hprobe, if_true]
    rw [hcs, hds, hb]
    have hq : (10 : ℚ) + ((10 : ℤ) : ℚ) * (25/100) + ((40 : ℤ) : ℚ) * (65/100)
        + ((15 : ℤ) : ℚ) = 107/2 := by
      push_cast
      norm_num
    rw [hq, pyInt, if_neg (by norm_num)]
    have hf : ⌊(107/2 : ℚ)⌋ = 53 := by
      rw [Int.floor_eq_iff]
      constructor
      · norm_num
      · norm_num
    rw [hf]
    decide
  refine ⟨by decide, hov, ?_, ?_⟩
  · rw [hov]
    decide
  · rw [hov]
    decide

/-- Claim C3 (amended): for a reachable page with exactly one `<video>` element, no
iframes, no divs, tables or scripts, and no streaming keywords in title, meta
description, meta tags or platform references, the DOM score is 40 as claimed, but
the composite confidence is int(10 + 0.25·10 + 0.65·40 + 15) = 53 — the content stage
contributes its base score 10 and the `video_tags` bonus adds 15 — so the page is
admitted at the default threshold 50 rather than rejected. -/
theorem claim_C3_one_video_page (d : Doc)
    (hv : d.videoCount = 1) (hif : d.iframeSrcs = []) (hdv : d.divs = [])
    (htb : d.tableClasses = []) (hsc : d.scriptTexts = [])
    (hkw : ∀ p ∈ content_streaming_keywords, pyIn p.1 (contentTextOf d) = false)
    (hpat : ∀ p ∈ streaming_patterns, cpMatch p (contentTextOf d) = false)
    (hmeta : ∀ p ∈ streaming_meta_patterns, pyIn p.1 (lowerStr d.rawHtml) = false)
    (hplat : ∀ p ∈ platform_indicators, pyIn p (lowerStr d.rawHtml) = false) :
    (fingerprintDomFromHtml d).confidence_score = 40
    ∧ (verifyUrl (NetResult.ok 200) (some d) (some d)).overall_confidence = 53
    ∧ 50 ≤ (verifyUrl (NetResult.ok 200) (some d) (some d)).overall_confidence := by
  have hckw : contentKwFold (contentTextOf d) ([], 10) = ([], 10) := by
    unfold contentKwFold
    exact foldl_fix_of_no_hits _ _ _ fun b x hx => by simp [hkw x hx]
  have hcb : contentBonuses ([], (10 : ℤ)) = ([], 10) := by decide
  have hcp : contentPatFold (contentTextOf d) ([], 10) = ([], 10) := by
    unfold contentPatFold
    exact foldl_fix_of_no_hits _ _ _ fun b x hx => by simp [hpat x hx]
  have hca : analyzeContentFromHtml d
      = { success := true, confidence_score := 10, indicators := [],
          title := some d.title } := by
    unfold analyzeContentFromHtml
    rw [hckw, hcb, hcp]
  have hd1 : domVideoStep d ([], 0) = (["video_tags_1"], 40) := by
    unfold domVideoStep
    rw [hv]
    decide
  have hd2 : domIframeStep d (["video_tags_1"], 40) = (["video_tags_1"], 40) := by
    unfold domIframeStep
    rw [hif]
    decide
  have hd3 : domSelectorStep d (["video_tags_1"], 40) = (["video_tags_1"], 40) := by
    unfold domSelectorStep
    refine foldl_fix_of_no_hits _ _ _ fun b x hx => ?_
    have hm : selectorMatches d x = false := by
      unfold selectorMatches
      rw [hdv]
      split <;> rfl
    simp [hm]
  have hd4 : domScriptStep d (["video_tags_1"], 40) = (["video_tags_1"], 40) := by
    unfold domScriptStep
    rw [hsc]
    rfl
  have hd5 : domScheduleStep d (["video_tags_1"], 40) = (["video_tags_1"], 40) := by
    unfold domScheduleStep
    rw [hdv]
    simp
  have hd6 : domTableStep d (["video_tags_1"], 40) = (["video_tags_1"], 40) := by
    unfold domTableStep
    rw [htb]
    simp
  have hd7 : domMetaStep d (["video_tags_1"], 40) = (["video_tags_1"], 40) := by
    unfold domMetaStep
    exact foldl_fix_of_no_hits _ _ _ fun b x hx => by simp [hmeta x hx]
  have hd8 : domPlatformStep d (["video_tags_1"], 40) = (["video_tags_1"], 40) := by
    unfold domPlatformStep
    exact foldl_fix_of_no_hits _ _ _ fun b x hx => by simp [hplat x hx]
  have hdm : fingerprintDomFromHtml d
      = { success := true, confidence_score := 40,
          structural_indicators := ["video_tags_1"] } := by
    unfold fingerprintDomFromHtml
    rw [hd1, hd2, hd3, hd4, hd5, hd6, hd7, hd8]
  have hae : analyzeContent (some d) = analyzeContentFromHtml d := rfl
  have hfe : fingerprintDom (some d) = fingerprintDomFromHtml d := rfl
  have hcs : contentScoreOf (some d) = 10 := by
    unfold contentScoreOf
    rw [hae, hca]
    rfl
  have hds : domScoreOf (some d) = 40 := by
    unfold domScoreOf
    rw [hfe, hdm]
    rfl
  have hb : bonusPoints (analyzeContent (some d)) (fingerprintDom (some d)) = 15 := by
    rw [hae, hca, hfe, hdm]
    rfl
  have hprobe : (probeReachability (NetResult.ok 200)).success = true := rfl
  have hov : (verifyUrl (NetResult.ok 200) (some d) (some d)).overall_confidence = 53 := by
    simp only [verifyUrl, hprobe, if_true]
    rw [hcs, hds, hb]
    have hq : (10 : ℚ) + ((10 : ℤ) : ℚ) * (25/100) + ((40 : ℤ) : ℚ) * (65/100)
        + ((15 : ℤ) : ℚ) = 107/2 := by
      push_cast
      norm_num
    rw [hq, pyInt, if_neg (by norm_num)]
    have hf : ⌊(107/2 : ℚ)⌋ = 53 := by
      rw [Int.floor_eq_iff]
      constructor
      · norm_num
      · norm_num
    rw [hf]
    decide
  refine ⟨?_, hov, ?_⟩
  · rw [hdm]
  · rw [hov]
    decide

/-- Claim C3 witness: the amended one-video-page theorem applied at the concrete
sample document. -/
theorem claim_C3_witness :
    (fingerprintDomFromHtml sampleVideoDoc).confidence_score = 40
    ∧ (verifyUrl (NetResult.ok 200) (some sampleVideoDoc)
        (some sampleVideoDoc)).overall_confidence = 53
    ∧ 50 ≤ (verifyUrl (NetResult.ok 200) (some sampleVideoDoc)
        (some sampleVideoDoc)).overall_confidence :=
  claim_C3_one_video_page sampleVideoDoc rfl rfl rfl rfl rfl (by decide) (by decide)
    (by decide) (by decide)

/-! ## JSON values and `json.loads` (used by `llm_analyst.py`)

`json.loads` is modelled by an executable recursive-descent parser over an
inductive JSON value type. Numeric literals keep their lexeme; objects keep
insertion order with last-wins duplicate keys, as Python dicts do. -/

/-- A parsed JSON value. -/
inductive JValue where
  | null
  | bool (b : Bool)
  | num (raw : String)
  | str (s : String)
  | arr (xs : List JValue)
  | obj (m : List (String × JValue))

/-- Left opening curly brace character. -/
def lCurly : Char := Char.ofNat 123

/-- Right closing curly brace character. -/
def rCurly : Char := Char.ofNat 125

/-- Python dict lookup on an insertion-ordered association list. -/
def alGet : List (String × JValue) → String → Option JValue
  | [], _ => none
  | (k', v) :: rest, k => if k' = k then some v else alGet rest k

/-- Python `key in dict`. -/
def alHas (m : List (String × JValue)) (k : String) : Bool :=
  (alGet m k).isSome

/-- Python `dict[key] = value`: replace in place, else append. -/
def alSet : List (String × JValue) → String → JValue → List (String × JValue)
  | [], k, v => [(k, v)]
  | (k', v') :: rest, k, v =>
      if k' = k then (k, v) :: rest else (k', v') :: alSet rest k v

/-- JSON insignificant whitespace. -/
def jsonWs (c : Char) : Bool := c = ' ' || c = '\t' || c = '\n' || c = '\r'

/-- Skip JSON whitespace. -/
def skipWs : List Char → List Char
  | [] => []
  | c :: rest => if jsonWs c then skipWs rest else c :: rest

/-- Hexadecimal digit value. -/
def hexVal (c : Char) : Option Nat :=
  if 48 ≤ c.toNat && c.toNat ≤ 57 then some (c.toNat - 48)
  else if 97 ≤ c.toNat && c.toNat ≤ 102 then some (c.toNat - 87)
  else if 65 ≤ c.toNat && c.toNat ≤ 70 then some (c.toNat - 55)
  else none

/-- Parse the body of a JSON string literal after the opening quote; returns the
decoded characters and the remainder after the closing quote. -/
def parseStringBody : List Char → Option (List Char × List Char)
  | [] => none
  | c :: rest =>
    if c = '"' then some ([], rest)
    else if c = '\\' then
      match rest with
      | [] => none
      | e :: rest₂ =>
        if e = 'u' then
          match rest₂ with
          | h₁ :: h₂ :: h₃ :: h₄ :: rest₆ =>
            match hexVal h₁, hexVal h₂, hexVal h₃, hexVal h₄, parseStringBody rest₆ with
            | some a, some b, some u, some v, some (cs, rem) =>
                some (Char.ofNat (4096 * a + 256 * b + 16 * u + v) :: cs, rem)
            | _, _, _, _, _ => none
          | _ => none
        else
          let dec : Option Char :=
            if e = '"' then some '"'
            else if e = '\\' then some '\\'
            else if e = '/' then some '/'
            else if e = 'b' then some (Char.ofNat 8)
            else if e = 'f' then some (Char.ofNat 12)
            else if e = 'n' then some '\n'
            else if e = 'r' then some '\r'
            else if e = 't' then some '\t'
            else none
          match dec, parseStringBody rest₂ with
          | some d, some (cs, rem) => some (d :: cs, rem)
          | _, _ => none
    else
      match parseStringBody rest with
      | some (cs, rem) => some (c :: cs, rem)
      | none => none

/-- Split off a leading run of decimal digits. -/
def takeDigits : List Char → List Char × List Char
  | [] => ([], [])
  | c :: rest =>
    if c.isDigit then
      let (ds, rem) := takeDigits rest
      (c :: ds, rem)
    else ([], c :: rest)

/-- Parse a JSON numeric literal, keeping its lexeme. -/
def parseNumberLex (cs : List Char) : Option (String × List Char) :=
  let (sign, cs₁) := match cs with
    | '-' :: rest => (['-'], rest)
    | _ => (([] : List Char), cs)
  let (ip, cs₂) := takeDigits cs₁
  if ip.isEmpty then none
  else
    let (fp, cs₃) := match cs₂ with
      | '.' :: rest =>
        let (ds, rem) := takeDigits rest
        if ds.isEmpty then (([] : List Char), cs₂) else ('.' :: ds, rem)
      | _ => (([] : List Char), cs₂)
    let (ep, cs₄) := match cs₃ with
      | e :: rest =>
        if e = 'e' || e = 'E' then
          let (es, rest₂) := match rest with
            | s :: r => if s = '+' || s = '-' then ([e, s], r) else ([e], rest)
            | [] => ([e], rest)
          let (ds, rem) := takeDigits rest₂
          if ds.isEmpty then (([] : List Char), cs₃) else (es ++ ds, rem)
        else (([] : List Char), cs₃)
      | [] => (([] : List Char), cs₃)
    some (⟨sign ++ ip ++ fp ++ ep⟩, cs₄)

mutual

/-- Recursive-descent JSON value parser (fuel-indexed). -/
def parseJValue : Nat → List Char → Option (JValue × List Char)
  | 0, _ => none
  | n + 1, cs =>
    match skipWs cs with
    | [] => none
    | c :: rest =>
      if c = '"' then
        match parseStringBody rest with
        | some (body, rem) => some (.str ⟨body⟩, rem)
        | none => none
      else if c = lCurly then parseJMembers n rest []
      else if c = '[' then parseJItems n rest []
      else if ['n', 'u', 'l', 'l'].isPrefixOf (c :: rest) then
        some (.null, (c :: rest).drop 4)
      else if ['t', 'r', 'u', 'e'].isPrefixOf (c :: rest) then
        some (.bool true, (c :: rest).drop 4)
      else if ['f', 'a', 'l', 's', 'e'].isPrefixOf (c :: rest) then
        some (.bool false, (c :: rest).drop 5)
      else
        match parseNumberLex (c :: rest) with
        | some (lex, rem) => some (.num lex, rem)
        | none => none

/-- Parse object members after the opening brace. -/
def parseJMembers : Nat → List Char → List (String × JValue) →
    Option (JValue × List Char)
  | 0, _, _ => none
  | n + 1, cs, acc =>
    match skipWs cs with
    | [] => none
    | c :: rest =>
      if c = rCurly && acc.isEmpty then some (.obj acc, rest)
      else
        match skipWs cs with
        | c' :: rest' =>
          if c' = '"' then
            match parseStringBody rest' with
            | some (key, afterKey) =>
              match skipWs afterKey with
              | ':' :: afterColon =>
                match parseJValue n afterColon with
                | some (v, afterVal) =>
                  let acc' := alSet acc ⟨key⟩ v
                  match skipWs afterVal with
                  | ',' :: afterComma => parseJMembers n afterComma acc'
                  | d :: afterClose =>
                      if d = rCurly then some (.obj acc', afterClose) else none
                  | [] => none
                | none => none
              | _ => none
            | none => none
          else none
        | [] => none

/-- Parse array items after the opening bracket. -/
def parseJItems : Nat → List Char → List JValue → Option (JValue × List Char)
  | 0, _, _ => none
  | n + 1, cs, acc =>
    match skipWs cs with
    | [] => none
    | c :: rest =>
      if c = ']' && acc.isEmpty then some (.arr acc.reverse, rest)
      else
        match parseJValue n cs with
        | some (v, afterVal) =>
          match skipWs afterVal with
          | ',' :: afterComma => parseJItems n afterComma (v :: acc)
          | ']' :: afterClose => some (.arr (v :: acc).reverse, afterClose)
          | _ => none
        | none => none

end

/-- `json.loads`: parse one JSON value and require only whitespace after it. -/
def jloads (s : String) : Option JValue :=
  match parseJValue (s.length + 1) s.toList with
  | some (v, rest) => if (skipWs rest).isEmpty then some v else none
  | none => none

/-! ## Cognitive analyzer response parsing
(`llm_analyst.py`, `LLMAnalyst._parse_llm_response`) -/

/-- Python `dict.setdefault`-style fill used by `_parse_llm_response`:
assign `v` under `k` only when the key is absent. -/
def fillMissing (m : List (String × JValue)) (k : String) (v : JValue) :
    List (String × JValue) :=
  if alHas m k then m else alSet m k v

/-- The `full_reasoning_process` default inserted by the direct-parse stage when the
field is missing. -/
def frpMissingDefault : JValue :=
  .obj [("initial_analysis", .str "Parse error - field missing"),
        ("hypothesis", .str "Parse error - field missing"),
        ("self_critique", .str "Parse error - field missing"),
        ("conclusion", .str "Parse error - field missing")]

/-- Reasoning sub-field fills of the direct-parse stage. -/
def fillReasoning (r : List (String × JValue)) : List (String × JValue) :=
  fillMissing (fillMissing (fillMissing (fillMissing r
    "initial_analysis" (.str "Missing reasoning step"))
    "hypothesis" (.str "Missing reasoning step"))
    "self_critique" (.str "Missing reasoning step"))
    "conclusion" (.str "Missing reasoning step")

/-- The required-field fill loop of `_parse_llm_response`, in code order:
`service_name`, `is_sports_streaming_site`, `full_reasoning_process`,
`final_confidence_score`, each assigned its default only when absent. -/
def fillFour (m : List (String × JValue)) (a b c d : JValue) : List (String × JValue) :=
  fillMissing (fillMissing (fillMissing (fillMissing m
    "service_name" a)
    "is_sports_streaming_site" b)
    "full_reasoning_process" c)
    "final_confidence_score" d

/-- The four required-field fills of the direct-parse stage, in code order:
`Unknown`, `false`, the reasoning default, `0`. -/
def fillRequiredDirect (m : List (String × JValue)) : List (String × JValue) :=
  fillFour m (.str "Unknown") (.bool false) frpMissingDefault (.num "0")

/-- Direct-parse stage of `_parse_llm_response`: fill the four required fields, then
fill the reasoning sub-fields when `full_reasoning_process` is a dict. -/
def fillDirect (m : List (String × JValue)) : List (String × JValue) :=
  match alGet (fillRequiredDirect m) "full_reasoning_process" with
  | some (.obj r) =>
      alSet (fillRequiredDirect m) "full_reasoning_process" (.obj (fillReasoning r))
  | _ => fillRequiredDirect m

/-- The `full_reasoning_process` default of the fallback stage. -/
def frpFallbackDefault : JValue :=
  .obj [("initial_analysis", .str "Fallback parsing - limited analysis available"),
        ("hypothesis", .str "Unable to extract hypothesis from malformed response"),
        ("self_critique", .str "Self-critique unavailable due to parsing issues"),
        ("conclusion", .str "Conclusion reached through fallback parsing")]

/-- Fallback-stage fills of `_parse_llm_response`: `Unknown`, `false`, the fallback
reasoning default, and `50` for a missing `final_confidence_score`. -/
def fillFallback (m : List (String × JValue)) : List (String × JValue) :=
  fillFour m (.str "Unknown") (.bool false) frpFallbackDefault (.num "50")

/-- The default-negative result returned when both parse stages fail, with the
`parse_error` flag. -/
def parseFailureDefault : List (String × JValue) :=
  [("service_name", .str "Unknown"),
   ("is_sports_streaming_site", .bool false),
   ("full_reasoning_process",
     .obj [("initial_analysis", .str "Failed to parse LLM response - no analysis available"),
           ("hypothesis", .str "Unable to form hypothesis due to parsing failure"),
           ("self_critique", .str "Cannot perform self-critique on unparseable response"),
           ("conclusion", .str "Default conclusion due to complete parsing failure")]),
   ("final_confidence_score", .num "0"),
   ("parse_error", .str "Complete JSON parsing failure")]

/-- Index of the first occurrence of a character (Python `str.find`). -/
def firstIdxOf (c : Char) : List Char → Option Nat
  | [] => none
  | x :: rest => if x = c then some 0 else (firstIdxOf c rest).map (· + 1)

/-- Index of the last occurrence of a character (Python `str.rfind`). -/
def lastIdxOf (c : Char) (cs : List Char) : Option Nat :=
  match firstIdxOf c cs.reverse with
  | some i => some (cs.length - 1 - i)
  | none => none

/-- The fallback extraction of `_parse_llm_response`: the substring from the first
opening brace to the last closing brace, provided the latter comes after the former. -/
def extractBraces (s : String) : Option String :=
  match firstIdxOf lCurly s.toList, lastIdxOf rCurly s.toList with
  | some i, some j => if i < j then some ⟨(s.toList.drop i).take (j + 1 - i)⟩ else none
  | _, _ => none

/-- `LLMAnalyst._parse_llm_response` (`llm_analyst.py`): direct `json.loads`, then the
brace-substring fallback, then the default-negative result. A response that parses as
non-object JSON makes the field-filling loop raise a `TypeError` (only
`json.JSONDecodeError` is caught), modelled as `Except.error`. -/
def parseLlmResponse (s : String) : Except Unit (List (String × JValue)) :=
  match jloads s with
  | some (.obj m) => .ok (fillDirect m)
  | some _ => .error ()
  | none =>
    match extractBraces s with
    | some sub =>
      match jloads sub with
      | some (.obj m) => .ok (fillFallback m)
      | _ => .ok parseFailureDefault
    | none => .ok parseFailureDefault

theorem alGet_alSet_self (m : List (String × JValue)) (k : String) (v : JValue) :
    alGet (alSet m k v) k = some v := by
  induction m with
  | nil => simp [alSet, alGet]
  | cons p rest ih =>
    by_cases h : p.1 = k
    · simp [alSet, alGet, h]
    · simp [alSet, alGet, h, ih]

theorem alGet_alSet_ne (m : List (String × JValue)) (k k' : String) (v : JValue)
    (h : k' ≠ k) : alGet (alSet m k' v) k = alGet m k := by
  induction m with
  | nil => simp [alSet, alGet, h]
  | cons p rest ih =>
    by_cases hp : p.1 = k'
    · simp [alSet, alGet, hp, h]
    · by_cases hk : p.1 = k
      · have hkk : ¬ k = k' := fun he => h he.symm
        simp [alSet, alGet, hp, hk, hkk]
      · simp [alSet, alGet, hp, hk, ih]

theorem alHas_fillMissing_self (m : List (String × JValue)) (k : String) (v : JValue) :
    alHas (fillMissing m k v) k = true := by
  unfold fillMissing
  by_cases h : alHas m k = true
  · rw [if_pos h]
    exact h
  · rw [if_neg h]
    simp [alHas, alGet_alSet_self]

theorem alGet_fillMissing_of_none (m : List (String × JValue)) (k : String) (v : JValue)
    (h : alGet m k = none) : alGet (fillMissing m k v) k = some v := by
  unfold fillMissing
  rw [if_neg]
  · exact alGet_alSet_self m k v
  · simp [alHas, h]

theorem alGet_fillMissing_ne (m : List (String × JValue)) (k k' : String) (v : JValue)
    (h : k' ≠ k) : alGet (fillMissing m k' v) k = alGet m k := by
  unfold fillMissing
  split
  · rfl
  · exact alGet_alSet_ne m k k' v h

theorem alHas_fillMissing_mono (m : List (String × JValue)) (k k' : String) (v : JValue)
    (h : alHas m k = true) : alHas (fillMissing m k' v) k = true := by
  by_cases hk : k' = k
  · subst hk
    exact alHas_fillMissing_self m k' v
  · unfold alHas
    rw [alGet_fillMissing_ne m k k' v hk]
    exact h

theorem fillFour_has_sn (m : List (String × JValue)) (a b c d : JValue) :
    alHas (fillFour m a b c d) "service_name" = true :=
  alHas_fillMissing_mono _ _ _ _ (alHas_fillMissing_mono _ _ _ _
    (alHas_fillMissing_mono _ _ _ _ (alHas_fillMissing_self _ _ _)))

theorem fillFour_has_iss (m : List (String × JValue)) (a b c d : JValue) :
    alHas (fillFour m a b c d) "is_sports_streaming_site" = true :=
  alHas_fillMissing_mono _ _ _ _ (alHas_fillMissing_mono _ _ _ _
    (alHas_fillMissing_self _ _ _))

theorem fillFour_has_frp (m : List (String × JValue)) (a b c d : JValue) :
    alHas (fillFour m a b c d) "full_reasoning_process" = true :=
  alHas_fillMissing_mono _ _ _ _ (alHas_fillMissing_self _ _ _)

theorem fillFour_has_fcs (m : List (String × JValue)) (a b c d : JValue) :
    alHas (fillFour m a b c d) "final_confidence_score" = true :=
  alHas_fillMissing_self _ _ _

theorem fillFour_get_sn_none (m : List (String × JValue)) (a b c d : JValue)
    (h : alGet m "service_name" = none) :
    alGet (fillFour m a b c d) "service_name" = some a := by
  unfold fillFour
  rw [alGet_fillMissing_ne _ "service_name" "final_confidence_score" _ (by decide),
    alGet_fillMissing_ne _ "service_name" "full_reasoning_process" _ (by decide),
    alGet_fillMissing_ne _ "service_name" "is_sports_streaming_site" _ (by decide)]
  exact alGet_fillMissing_of_none _ _ _ h

theorem fillFour_get_iss_none (m : List (String × JValue)) (a b c d : JValue)
    (h : alGet m "is_sports_streaming_site" = none) :
    alGet (fillFour m a b c d) "is_sports_streaming_site" = some b := by
  unfold fillFour
  rw [alGet_fillMissing_ne _ "is_sports_streaming_site" "final_confidence_score" _ (by decide),
    alGet_fillMissing_ne _ "is_sports_streaming_site" "full_reasoning_process" _ (by decide)]
  apply alGet_fillMissing_of_none
  rw [alGet_fillMissing_ne _ "is_sports_streaming_site" "service_name" _ (by decide)]
  exact h

theorem fillFour_get_fcs_none (m : List (String × JValue)) (a b c d : JValue)
    (h : alGet m "final_confidence_score" = none) :
    alGet (fillFour m a b c d) "final_confidence_score" = some d := by
  unfold fillFour
  apply alGet_fillMissing_of_none
  rw [alGet_fillMissing_ne _ "final_confidence_score" "full_reasoning_process" _ (by decide),
    alGet_fillMissing_ne _ "final_confidence_score" "is_sports_streaming_site" _ (by decide),
    alGet_fillMissing_ne _ "final_confidence_score" "service_name" _ (by decide)]
  exact h

theorem fillDirect_has_of_frd (m : List (String × JValue)) (k : String)
    (h : alHas (fillRequiredDirect m) k = true) : alHas (fillDirect m) k = true := by
  unfold fillDirect
  split
  · by_cases hk : k = "full_reasoning_process"
    · subst hk
      simp [alHas, alGet_alSet_self]
    · unfold alHas
      rw [alGet_alSet_ne _ _ _ _ (fun he => hk he.symm)]
      exact h
  · exact h

theorem fillDirect_get_ne (m : List (String × JValue)) (k : String)
    (hne : "full_reasoning_process" ≠ k) :
    alGet (fillDirect m) k = alGet (fillRequiredDirect m) k := by
  unfold fillDirect
  split
  · exact alGet_alSet_ne _ _ _ _ hne
  · rfl

/-- Claim C7 (amended): `_parse_llm_response` parses in two stages (direct JSON parse,
then extraction of the outermost brace-delimited substring). When the direct stage
yields a JSON object, missing required fields are filled with Unknown / false / 0;
when only the fallback stage yields an object, they are filled with Unknown / false /
50 — not 0. When both stages fail, the default-negative result with the `parse_error`
flag is returned rather than an exception being raised; a response parsing as
non-object JSON, however, makes the filling loop raise a TypeError. -/
theorem claim_C7_parse_two_stage (s : String) :
    (∀ m, jloads s = some (JValue.obj m) →
      parseLlmResponse s = .ok (fillDirect m)
      ∧ alHas (fillDirect m) "service_name" = true
      ∧ alHas (fillDirect m) "is_sports_streaming_site" = true
      ∧ alHas (fillDirect m) "full_reasoning_process" = true
      ∧ alHas (fillDirect m) "final_confidence_score" = true
      ∧ (alGet m "service_name" = none →
          alGet (fillDirect m) "service_name" = some (.str "Unknown"))
      ∧ (alGet m "is_sports_streaming_site" = none →
          alGet (fillDirect m) "is_sports_streaming_site" = some (.bool false))
      ∧ (alGet m "final_confidence_score" = none →
          alGet (fillDirect m) "final_confidence_score" = some (.num "0")))
    ∧ (∀ v, jloads s = some v → (∀ m, v ≠ JValue.obj m) → parseLlmResponse s = .error ())
    ∧ (jloads s = none → ∀ sub m, extractBraces s = some sub →
        jloads sub = some (JValue.obj m) →
        parseLlmResponse s = .ok (fillFallback m)
        ∧ alHas (fillFallback m) "service_name" = true
        ∧ alHas (fillFallback m) "is_sports_streaming_site" = true
        ∧ alHas (fillFallback m) "full_reasoning_process" = true
        ∧ alHas (fillFallback m) "final_confidence_score" = true
        ∧ (alGet m "service_name" = none →
            alGet (fillFallback m) "service_name" = some (.str "Unknown"))
        ∧ (alGet m "is_sports_streaming_site" = none →
            alGet (fillFallback m) "is_sports_streaming_site" = some (.bool false))
        ∧ (alGet m "final_confidence_score" = none →
            alGet (fillFallback m) "final_confidence_score" = some (.num "50")))
    ∧ (jloads s = none →
        (∀ sub, extractBraces s = some sub → ∀ m, jloads sub ≠ some (JValue.obj m)) →
        parseLlmResponse s = .ok parseFailureDefault
        ∧ alGet parseFailureDefault "parse_error"
            = some (.str "Complete JSON parsing failure")
        ∧ alGet parseFailureDefault "is_sports_streaming_site" = some (.bool false)
        ∧ alGet parseFailureDefault "final_confidence_score" = some (.num "0")) := by
  refine ⟨?_, ?_, ?_, ?_⟩
  · intro m h
    refine ⟨by simp [parseLlmResponse, h], ?_, ?_, ?_, ?_, ?_, ?_, ?_⟩
    · exact fillDirect_has_of_frd _ _ (fillFour_has_sn _ _ _ _ _)
    · exact fillDirect_has_of_frd _ _ (fillFour_has_iss _ _ _ _ _)
    · exact fillDirect_has_of_frd _ _ (fillFour_has_frp _ _ _ _ _)
    · exact fillDirect_has_of_frd _ _ (fillFour_has_fcs _ _ _ _ _)
    · intro hn
      rw [fillDirect_get_ne _ _ (by decide)]
      exact fillFour_get_sn_none _ _ _ _ _ hn
    · intro hn
      rw [fillDirect_get_ne _ _ (by decide)]
      exact fillFour_get_iss_none _ _ _ _ _ hn
    · intro hn
      rw [fillDirect_get_ne _ _ (by decide)]
      exact fillFour_get_fcs_none _ _ _ _ _ hn
  · intro v h hno
    cases v with
    | obj m => exact absurd rfl (hno m)
    | null => simp [parseLlmResponse, h]
    | bool b => simp [parseLlmResponse, h]
    | num r => simp [parseLlmResponse, h]
    | str t => simp [parseLlmResponse, h]
    | arr xs => simp [parseLlmResponse, h]
  · intro h sub m hsub hm
    refine ⟨by simp [parseLlmResponse, h, hsub, hm], fillFour_has_sn _ _ _ _ _,
      fillFour_has_iss _ _ _ _ _, fillFour_has_frp _ _ _ _ _, fillFour_has_fcs _ _ _ _ _,
      fun hn => fillFour_get_sn_none _ _ _ _ _ hn,
      fun hn => fillFour_get_iss_none _ _ _ _ _ hn,
      fun hn => fillFour_get_fcs_none _ _ _ _ _ hn⟩
  · intro h hall
    refine ⟨?_, rfl, rfl, rfl⟩
    unfold parseLlmResponse
    rw [h]
    cases hx : extractBraces s with
    | none => rfl
    | some sub =>
      cases hj : jloads sub with
      | none => simp [hj]
      | some v =>
        cases v with
        | obj m => exact absurd hj (hall sub hx m)
        | null => simp [hj]
        | bool b => simp [hj]
        | num r => simp [hj]
        | str t => simp [hj]
        | arr xs => simp [hj]

/-- Claim C7 counterexample: for the response `Here is my analysis: ...JSON...` whose
JSON object carries only `service_name`, the direct parse fails, the fallback
extraction succeeds, and the missing `final_confidence_score` is filled with 50 —
not with the sentinel 0 the claim states. -/
theorem claim_C7_counterexample :
    jloads "Here is my analysis: \x7b\"service_name\": \"StreamEast\"\x7d" = none
    ∧ parseLlmResponse "Here is my analysis: \x7b\"service_name\": \"StreamEast\"\x7d"
        = .ok (fillFallback [("service_name", JValue.str "StreamEast")])
    ∧ alGet (fillFallback [("service_name", JValue.str "StreamEast")])
        "final_confidence_score" = some (JValue.num "50")
    ∧ alGet (fillFallback [("service_name", JValue.str "StreamEast")])
        "final_confidence_score" ≠ some (JValue.num "0") := by
  refine ⟨rfl, rfl, rfl, ?_⟩
  intro h
  rw [show alGet (fillFallback [("service_name", JValue.str "StreamEast")])
      "final_confidence_score" = some (JValue.num "50") from rfl] at h
  simp only [Option.some.injEq] at h
  injection h with h2
  exact absurd h2 (by decide)

/-- Claim C7 witness: the two-stage theorem applied at concrete responses — a plain
JSON object (direct stage), a JSON array (TypeError), and brace-free prose (default
negative with `parse_error`). -/
theorem claim_C7_witness :
    parseLlmResponse "\x7b\"service_name\": \"X\"\x7d"
        = .ok (fillDirect [("service_name", JValue.str "X")])
    ∧ parseLlmResponse "[1]" = .error ()
    ∧ parseLlmResponse "no json at all"
        = .ok parseFailureDefault :=
  ⟨((claim_C7_parse_two_stage "\x7b\"service_name\": \"X\"\x7d").1
      [("service_name", JValue.str "X")] rfl).1,
   (claim_C7_parse_two_stage "[1]").2.1 (JValue.arr [JValue.num "1"]) rfl
      (fun _ h => nomatch h),
   ((claim_C7_parse_two_stage "no json at all").2.2.2 rfl
      (fun _ hs => nomatch hs)).1⟩

/-! ## Catalog rows and writes (`scout.py` and `spider/spiders/scout.py`) -/

/-- A row of the `sites` table. `llm_verified`, `category` and `llm_reasoning` are the
V4 enrichment columns (`none` models SQL NULL). -/
structure SiteRow where
  name : JValue
  url : String
  source : String
  last_verified : Nat
  confidence_score : ℤ
  is_active : Bool
  status : String
  llm_verified : Option JValue
  category : Option JValue
  llm_reasoning : Option JValue

/-- Python `dict.get(k, dflt)`. -/
def pyGet (m : List (String × JValue)) (k : String) (dflt : JValue) : JValue :=
  (alGet m k).getD dflt

/-- Whether an optional JSON value is exactly the string `Unknown`
(Python `llm_analysis_result.get('service_name') != 'Unknown'` negated). -/
def isUnknownStr : Option JValue → Bool
  | some (.str n) => n = "Unknown"
  | _ => false

/-- The upsert at the end of `ScoutSpider._write_url_to_database`: update the row
matched by URL or insert a new one, in both cases with `is_active = 1`,
`status = 'active'` and the V4 enrichment fields. -/
def writeUrlUpsert (db : List SiteRow) (url : String) (confidence : ℤ) (timestamp : Nat)
    (nm : JValue) (llmv cat reas : Option JValue) : List SiteRow :=
  if db.any fun r => r.url = url then
    db.map fun r =>
      if r.url = url then
        { r with
          last_verified := timestamp
          confidence_score := confidence
          is_active := true
          status := "active"
          name := nm
          llm_verified := llmv
          category := cat
          llm_reasoning := reas }
      else r
  else
    db ++ [{ name := nm
             url := url
             source := "v4_hybrid_discovery"
             last_verified := timestamp
             confidence_score := confidence
             is_active := true
             status := "active"
             llm_verified := llmv
             category := cat
             llm_reasoning := reas }]

/-- `ScoutSpider._write_url_to_database` (`spider/spiders/scout.py`): choose the site
name from the analyzer result when present and not `Unknown`, extract the V4 enrichment
fields (the verdict is read from the key `is_streaming_portal`), then update the
existing row or insert a new one with `is_active = 1, status = 'active'`. A `KeyError`
on a missing `service_name` (possible when the key is absent but the truthiness check
passed) is swallowed by the function's catch-all handler, leaving the table unchanged. -/
def writeUrlToDatabase (db : List SiteRow) (url : String) (confidence : ℤ)
    (timestamp : Nat) (fallbackName : String) (llm : Option (List (String × JValue))) :
    List SiteRow :=
  let nameVal : Option JValue :=
    match llm with
    | some m =>
      if !m.isEmpty && !isUnknownStr (alGet m "service_name") then alGet m "service_name"
      else some (.str fallbackName)
    | none => some (.str fallbackName)
  let enriched : Bool :=
    match llm with
    | some m => !m.isEmpty && !alHas m "error"
    | none => false
  let llmv : Option JValue :=
    match llm with
    | some m => if enriched then some (pyGet m "is_streaming_portal" (.bool false))
        else none
    | none => none
  let cat : Option JValue :=
    match llm with
    | some m => if enriched then some (pyGet m "primary_category" (.str "Unknown"))
        else none
    | none => none
  let reas : Option JValue :=
    match llm with
    | some m => if enriched then some (pyGet m "confidence_reasoning" (.str ""))
        else none
    | none => none
  match nameVal with
  | none => db
  | some nm => writeUrlUpsert db url confidence timestamp nm llmv cat reas

/-- A complete, well-formed positive analyzer response. -/
def sampleLlmResponse : String :=
  "\x7b\"service_name\": \"StreamEast\", \"is_sports_streaming_site\": true, " ++
  "\"full_reasoning_process\": \x7b\"initial_analysis\": \"keywords found\", " ++
  "\"hypothesis\": \"sports streaming portal\", \"self_critique\": \"checked\", " ++
  "\"conclusion\": \"streaming site\"\x7d, \"final_confidence_score\": 87\x7d"

/-- The analyzer result parsed from `sampleLlmResponse`. -/
def sampleLlmResult : List (String × JValue) :=
  [("service_name", .str "StreamEast"), ("is_sports_streaming_site", .bool true),
   ("full_reasoning_process",
     .obj [("initial_analysis", .str "keywords found"),
           ("hypothesis", .str "sports streaming portal"),
           ("self_critique", .str "checked"),
           ("conclusion", .str "streaming site")]),
   ("final_confidence_score", .num "87")]

set_option maxRecDepth 4000 in
/-- Claim C4: for an admitted URL whose cognitive analysis parsed with
`is_sports_streaming_site = true`, the stored row carries
`llm_verified = false` — the spider reads the analyzer verdict from the key
`is_streaming_portal`, which the V6 analyzer never emits, so the default `False` is
stored and the verdict never propagates. -/
theorem claim_C4_verdict_dropped :
    parseLlmResponse sampleLlmResponse = .ok sampleLlmResult
    ∧ alGet sampleLlmResult "is_sports_streaming_site" = some (JValue.bool true)
    ∧ writeUrlToDatabase [] "https://streameast.app" 78 0 "Streameast"
        (some sampleLlmResult)
      = [{ name := JValue.str "StreamEast"
           url := "https://streameast.app"
           source := "v4_hybrid_discovery"
           last_verified := 0
           confidence_score := 78
           is_active := true
           status := "active"
           llm_verified := some (JValue.bool false)
           category := some (JValue.str "Unknown")
           llm_reasoning := some (JValue.str "") }]
    ∧ (some (JValue.bool false) : Option JValue) ≠ some (JValue.bool true) := by
  refine ⟨rfl, rfl, rfl, ?_⟩
  intro h
  simp only [Option.some.injEq] at h
  injection h with h2
  exact absurd h2 (by decide)

/-! ## Hunters and union-merge (`hunters.py`) -/

/-- Default `base_names` of `permutation_verifier`. -/
def permutation_base_names : List String :=
  ["streameast", "sportssurge", "freestreams", "watchseries", "moviehd"]

/-- Default `tlds` of `permutation_verifier`. -/
def permutation_tlds : List String :=
  [".app", ".io", ".live", ".gg", ".net", ".org", ".tv", ".me", ".co", ".cc"]

/-- The mock data `permutation_verifier` returns when no domain was reachable. -/
def permutation_mock_results : List (String × ℤ) :=
  [("https://streameast.app", 0), ("https://sportssurge.io", 0),
   ("https://freestreams.live", 0)]

/-- `permutation_verifier` (`hunters.py`): probe every base×TLD combination via a HEAD
request (an outcome function models the network); keep reachable domains with bonus 0;
when none is reachable, return the mock data instead of the empty list. -/
def permutationVerifier (bases tlds : List String)
    (head : String → Except String Nat) : List (String × ℤ) :=
  let active := bases.foldl (fun acc base =>
    tlds.foldl (fun acc₂ tld =>
      let url := "https://" ++ (base ++ tld)
      match head url with
      | .ok sc => if sc < 400 then acc₂ ++ [(url, 0)] else acc₂
      | .error _ => acc₂) acc) []
  if active.isEmpty then permutation_mock_results else active

/-- Python `discovered_data.get(url, 0) + bonus` followed by assignment: add to the
entry in place, or append a fresh one. -/
def bonusAdd : List (String × ℤ) → String → ℤ → List (String × ℤ)
  | [], u, b => [(u, b)]
  | (u', b') :: rest, u, b =>
      if u' = u then (u', b' + b) :: rest else (u', b') :: bonusAdd rest u b

/-- Lookup in the merged bonus dictionary. -/
def bonusGet : List (String × ℤ) → String → Option ℤ
  | [], _ => none
  | (u', b) :: rest, u => if u' = u then some b else bonusGet rest u

/-- The union-merge of `discover_urls` (`hunters.py`): community bonuses are summed per
URL, permutation URLs are inserted with bonus 0 only when absent, search relevance
scores are summed on top. An erred hunter (caught by the per-hunter `except`)
contributes nothing. -/
def discoverData (community permutation search : Except Unit (List (String × ℤ))) :
    List (String × ℤ) :=
  let d₀ : List (String × ℤ) := []
  let d₁ := match community with
    | .ok l => l.foldl (fun d p => bonusAdd d p.1 p.2) d₀
    | .error _ => d₀
  let d₂ := match permutation with
    | .ok l => l.foldl (fun d p => if (bonusGet d p.1).isSome then d else d ++ [(p.1, 0)]) d₁
    | .error _ => d₁
  let d₃ := match search with
    | .ok l => l.foldl (fun d p => bonusAdd d p.1 p.2) d₂
    | .error _ => d₂
  d₃

/-- `discover_urls` (`hunters.py`): the merged dictionary's keys; the accumulated
bonuses are dropped from the return value. -/
def discoverUrls (community permutation search : Except Unit (List (String × ℤ))) :
    List String :=
  (discoverData community permutation search).map Prod.fst

/-- Sum of the bonuses a hunter result list carries for one URL. -/
def bonusSum (l : List (String × ℤ)) (u : String) : ℤ :=
  ((l.filter fun p => p.1 = u).map Prod.snd).sum

theorem bonusGet_bonusAdd_self (d : List (String × ℤ)) (u : String) (b : ℤ) :
    bonusGet (bonusAdd d u b) u = some ((bonusGet d u).getD 0 + b) := by
  induction d with
  | nil => simp [bonusAdd, bonusGet]
  | cons p rest ih =>
    by_cases h : p.1 = u
    · simp [bonusAdd, bonusGet, h]
    · simp [bonusAdd, bonusGet, h, ih]

theorem bonusGet_bonusAdd_ne (d : List (String × ℤ)) (u u' : String) (b : ℤ)
    (h : u' ≠ u) : bonusGet (bonusAdd d u' b) u = bonusGet d u := by
  induction d with
  | nil => simp [bonusAdd, bonusGet, h]
  | cons p rest ih =>
    by_cases hp : p.1 = u'
    · simp [bonusAdd, bonusGet, hp, h]
    · by_cases hu : p.1 = u
      · have hne₂ : ¬ u = u' := fun he => h he.symm
        simp [bonusAdd, bonusGet, hp, hu, hne₂]
      · simp [bonusAdd, bonusGet, hp, hu, ih]

theorem bonusGet_append_single (d : List (String × ℤ)) (u u' : String) (b : ℤ) :
    bonusGet (d ++ [(u', b)]) u
      = if (bonusGet d u).isSome then bonusGet d u
        else if u' = u then some b else none := by
  induction d with
  | nil => simp [bonusGet]
  | cons p rest ih =>
    by_cases hp : p.1 = u
    · simp [bonusGet, hp]
    · simp [bonusGet, hp, ih]

theorem bonusGet_addFold (l : List (String × ℤ)) (u : String) :
    ∀ d : List (String × ℤ),
      bonusGet (l.foldl (fun d p => bonusAdd d p.1 p.2) d) u
        = if (bonusGet d u).isSome ∨ l.any (fun p => p.1 = u) then
            some ((bonusGet d u).getD 0 + bonusSum l u)
          else none := by
  induction l with
  | nil =>
    intro d
    cases hd : bonusGet d u <;> simp [bonusSum, hd]
  | cons p rest ih =>
    intro d
    rw [List.foldl_cons, ih (bonusAdd d p.1 p.2)]
    by_cases hp : p.1 = u
    · rw [hp, bonusGet_bonusAdd_self]
      have hss : (some ((bonusGet d u).getD 0 + p.2)).isSome = true := rfl
      simp only [bonusGet_bonusAdd_self, hp, hss, true_or, if_true, Option.getD_some]
      have hany : (p :: rest).any (fun q => q.1 = u) = true := by
        simp [List.any_cons, hp]
      rw [if_pos (Or.inr hany)]
      have hsum : bonusSum (p :: rest) u = p.2 + bonusSum rest u := by
        simp [bonusSum, List.filter_cons, hp]
      rw [hsum]
      congr 1
      ring
    · rw [bonusGet_bonusAdd_ne d u p.1 p.2 hp]
      have hany : (p :: rest).any (fun q => q.1 = u) = rest.any (fun q => q.1 = u) := by
        simp [List.any_cons, hp]
      have hsum : bonusSum (p :: rest) u = bonusSum rest u := by
        simp [bonusSum, List.filter_cons, hp]
      rw [hany, hsum]

theorem bonusGet_insFold (l : List (String × ℤ)) (u : String) :
    ∀ d : List (String × ℤ),
      bonusGet (l.foldl
          (fun d p => if (bonusGet d p.1).isSome then d else d ++ [(p.1, 0)]) d) u
        = if (bonusGet d u).isSome then bonusGet d u
          else if l.any (fun p => p.1 = u) then some 0 else none := by
  induction l with
  | nil =>
    intro d
    cases hd : bonusGet d u <;> simp [hd]
  | cons p rest ih =>
    intro d
    rw [List.foldl_cons]
    by_cases hmem : (bonusGet d p.1).isSome = true
    · rw [if_pos hmem, ih d]
      by_cases hp : p.1 = u
      · subst hp
        simp [hmem]
      · have hany : (p :: rest).any (fun q => q.1 = u) = rest.any (fun q => q.1 = u) := by
          simp [List.any_cons, hp]
        rw [hany]
    · rw [if_neg hmem, ih (d ++ [(p.1, 0)])]
      rw [bonusGet_append_single]
      by_cases hp : p.1 = u
      · subst hp
        cases hd : bonusGet d p.1 with
        | some b => exact absurd (by simp [hd]) hmem
        | none =>
          simp [hd, List.any_cons]
      · cases hd : bonusGet d u with
        | some b =>
          simp [hd, hp]
        | none =>
          simp only [hd, Option.isSome_none, Bool.false_eq_true, if_false, List.any_cons]
          rw [if_neg hp]
          simp only [Option.isSome_none, Bool.false_eq_true, if_false]
          have hcond : (decide (p.1 = u) || rest.any fun q => decide (q.1 = u))
              = rest.any fun q => decide (q.1 = u) := by
            rw [decide_eq_false hp, Bool.false_or]
          simp only [hcond]

theorem bonusSum_eq_zero (l : List (String × ℤ)) (u : String)
    (h : l.any (fun p => p.1 = u) = false) : bonusSum l u = 0 := by
  unfold bonusSum
  have hf : l.filter (fun p => p.1 = u) = [] := by
    rw [List.filter_eq_nil_iff]
    intro a ha
    have := List.any_eq_false.mp h a ha
    simpa using this
  rw [hf]
  rfl

/-- Claim C5 counterexample: a URL emitted by the community hunter with bonus 20 and by
the search hunter with relevance 25 ends up with merged bonus 45 in `discover_urls`'
dictionary — the sum is not capped at 25. -/
theorem claim_C5_counterexample :
    bonusGet (discoverData (.ok [("https://streameast.app", 20)]) (.ok [])
        (.ok [("https://streameast.app", 25)])) "https://streameast.app" = some 45
    ∧ ¬ ((45 : ℤ) ≤ 25)
    ∧ bonusGet (discoverData (.ok [("https://streameast.app", 20)]) (.ok [])
        (.ok [("https://streameast.app", 25)])) "https://streameast.app"
      ≠ some (pyMin 45 25) := by
  refine ⟨rfl, by decide, ?_⟩
  intro h
  rw [show bonusGet (discoverData (.ok [("https://streameast.app", 20)]) (.ok [])
      (.ok [("https://streameast.app", 25)])) "https://streameast.app" = some 45 from rfl,
    show pyMin (45 : ℤ) 25 = 25 from by decide] at h
  simp only [Option.some.injEq] at h
  exact absurd h (by decide)

/-- Claim C5 (amended): the union-merge of `discover_urls` sums the per-hunter bonuses
per URL with no cap — for every URL the merged bonus equals the community sum plus the
search sum (permutation candidates contribute 0), and can therefore exceed 25; the
merged bonuses are then discarded, `discover_urls` returning only the URL list. -/
theorem claim_C5_merge_sums_uncapped (cl pl sl : List (String × ℤ)) (u : String) :
    bonusGet (discoverData (.ok cl) (.ok pl) (.ok sl)) u
      = (if cl.any (fun p => p.1 = u) ∨ pl.any (fun p => p.1 = u)
            ∨ sl.any (fun p => p.1 = u) then
          some (bonusSum cl u + bonusSum sl u)
        else none)
    ∧ discoverUrls (.ok cl) (.ok pl) (.ok sl)
      = (discoverData (.ok cl) (.ok pl) (.ok sl)).map Prod.fst := by
  refine ⟨?_, rfl⟩
  show bonusGet (sl.foldl (fun d p => bonusAdd d p.1 p.2)
      (pl.foldl (fun d p => if (bonusGet d p.1).isSome then d else d ++ [(p.1, 0)])
        (cl.foldl (fun d p => bonusAdd d p.1 p.2) []))) u = _
  rw [bonusGet_addFold, bonusGet_insFold, bonusGet_addFold]
  have h0 : bonusGet ([] : List (String × ℤ)) u = none := rfl
  rw [h0]
  simp only [Option.isSome_none, Bool.false_eq_true, false_or, Option.getD_none, zero_add]
  by_cases hc : cl.any (fun p => p.1 = u) = true
  · simp only [hc, if_true, Option.isSome_some, Option.getD_some, true_or]
  · have hcs : bonusSum cl u = 0 := bonusSum_eq_zero cl u (Bool.not_eq_true _ ▸ hc)
    simp only [hc, Bool.false_eq_true, if_false, false_or, hcs, zero_add]
    by_cases hp : pl.any (fun p => p.1 = u) = true
    · simp only [hp, if_true, Option.isSome_none, Bool.false_eq_true, if_false,
        Option.isSome_some, Option.getD_some, true_or, zero_add]
    · simp only [hp, Bool.false_eq_true, if_false, false_or, Option.isSome_none,
        Option.getD_none, zero_add]
/-- The default curated-page list of `community_aggregator` (the URL carries the
source's mojibake verbatim). -/
def community_default_urls : List String :=
  ["https://github.com/fmhy/FMHYedit/wiki/ðŸ“º-Movies---TV"]

/-- The mock tuples `community_aggregator` appends when scraping an `fmhy` page
raises. -/
def community_aggregator_mock_urls : List (String × ℤ) :=
  [("https://streameast.app", 15), ("https://sportssurge.net", 20),
   ("https://freestreams-live1.com", 10)]

/-- `community_aggregator` (`hunters.py`): each curated page is scraped inside its own
`try` (the scrape — fetch, anchor extraction and context analysis — is modelled as an
outcome function yielding the page's (url, context bonus) tuples); on an exception the
hunter appends the mock tuples when the page is the default `github.com/fmhy` one,
else nothing. -/
def communityAggregator (urls : List String)
    (scrape : String → Except String (List (String × ℤ))) : List (String × ℤ) :=
  urls.foldl (fun all url =>
    match scrape url with
    | .ok discovered => all ++ discovered
    | .error _ =>
      if pyIn "github.com/fmhy" url then all ++ community_aggregator_mock_urls
      else all) []

/-- The default `search_terms` of `search_engine_analyst`. -/
def search_default_terms : List String :=
  ["StreamEast new domain 2024", "SportsSurge alternative site",
   "free sports streaming site", "watch NFL online free", "live NBA stream free",
   "soccer streaming site 2024"]

/-- The mock tuples `search_engine_analyst` falls back to when no results were
obtained. -/
def search_mock_results : List (String × ℤ) :=
  [("https://streameast.live", 15), ("https://sportssurge.club", 18)]

/-- `search_engine_analyst` (`hunters.py`): each query runs inside its own `try` (the
query — rate-limited search plus result filtering and relevance scoring — is modelled
as an outcome function yielding the query's (url, relevance) tuples), a failed query
contributing nothing; when the run ends with no results at all (the outer handler with
an empty list, or the final check), the hunter returns the mock tuples. The outer
handler's partial-result return coincides with the failed queries contributing
nothing. -/
def searchEngineAnalyst (terms : List String)
    (searchTerm : String → Except String (List (String × ℤ))) : List (String × ℤ) :=
  let discovered := terms.foldl (fun acc term =>
    match searchTerm term with
    | .ok results => acc ++ results
    | .error _ => acc) []
  if discovered.isEmpty then search_mock_results else discovered

/-- Claim C8 counterexample: each hunter, when its entire run fails (every network
request raises), returns its synthesized mock tuples — not an empty sequence: the
permutation verifier 3, the community aggregator (on its default page list) 3, the
search analyst 2. -/
theorem claim_C8_counterexample :
    permutationVerifier permutation_base_names permutation_tlds
      (fun _ => .error "connection error") = permutation_mock_results
    ∧ permutation_mock_results ≠ []
    ∧ communityAggregator community_default_urls
        (fun _ => .error "HTTP 403") = community_aggregator_mock_urls
    ∧ community_aggregator_mock_urls ≠ []
    ∧ searchEngineAnalyst search_default_terms
        (fun _ => .error "429 blocked") = search_mock_results
    ∧ search_mock_results ≠ [] := by
  exact ⟨rfl, by decide, by decide, by decide, rfl, by decide⟩

/-- Claim C8 (amended): an exception inside one hunter does not prevent the other
hunters' results from being merged — `discover_urls` guards each hunter call, and an
erred hunter contributes exactly what an empty result would; but a hunter whose entire
run fails returns synthesized mock results rather than an empty sequence — the
permutation verifier its 3 mock URLs under a fully failing network, the community
aggregator its 3 mock tuples when scraping the default aggregator page fails, and the
search analyst its 2 mock tuples on total failure. -/
theorem claim_C8_hunter_isolation :
    (∀ pl sl : List (String × ℤ),
      discoverUrls (.error ()) (.ok pl) (.ok sl) = discoverUrls (.ok []) (.ok pl) (.ok sl))
    ∧ (∀ cl sl : List (String × ℤ),
      discoverUrls (.ok cl) (.error ()) (.ok sl) = discoverUrls (.ok cl) (.ok []) (.ok sl))
    ∧ (∀ cl pl : List (String × ℤ),
      discoverUrls (.ok cl) (.ok pl) (.error ()) = discoverUrls (.ok cl) (.ok pl) (.ok []))
    ∧ permutationVerifier permutation_base_names permutation_tlds
        (fun _ => .error "network unreachable") = permutation_mock_results
    ∧ communityAggregator community_default_urls
        (fun _ => .error "connection reset") = community_aggregator_mock_urls
    ∧ searchEngineAnalyst search_default_terms
        (fun _ => .error "rate limited") = search_mock_results :=
  ⟨fun _ _ => rfl, fun _ _ => rfl, fun _ _ => rfl, rfl, by decide, rfl⟩

/-! ## Catalog lifecycle operations (`scout.py`) -/

/-- `SignalScout._store_verified_site`: update the existing row (matched by URL) or
insert a new one; `is_active` is the threshold comparison and `status` mirrors it. -/
def storeVerifiedSite (db : List SiteRow) (url : String) (confidence threshold : ℤ)
    (timestamp : Nat) (siteName : String) : List SiteRow :=
  let is_active := threshold ≤ confidence
  let status := if is_active then "active" else "inactive"
  if db.any fun r => r.url = url then
    db.map fun r =>
      if r.url = url then
        { r with
          last_verified := timestamp
          confidence_score := confidence
          is_active := is_active
          status := status }
      else r
  else
    db ++ [{ name := JValue.str siteName
             url := url
             source := "scout_discovery"
             last_verified := timestamp
             confidence_score := confidence
             is_active := is_active
             status := status
             llm_verified := none
             category := none
             llm_reasoning := none }]

/-- One iteration of `SignalScout._quarantine_failed_sites`: the row is looked up with
`url = ? AND is_active = 1`; an active row is quarantined, a quarantined row would only
get its timestamp refreshed — but a quarantined row has `is_active = 0`, so the lookup
never finds it. -/
def quarantineOne (db : List SiteRow) (url : String) (timestamp : Nat) : List SiteRow :=
  match db.find? (fun r => decide (r.url = url) && r.is_active) with
  | none => db
  | some row =>
    if row.status = "active" then
      db.map fun r =>
        if r.url = url then
          { r with
            status := "quarantined"
            last_verified := timestamp
            is_active := false }
        else r
    else if row.status = "quarantined" then
      db.map fun r => if r.url = url then { r with last_verified := timestamp } else r
    else db

set_option linter.unusedVariables false in
/-- `SignalScout._quarantine_failed_sites`: the per-URL loop. `max_failed_attempts` is
read from configuration (scout.py:371) but never used — failure counting is a TODO in
the source. -/
def quarantineFailedSites (db : List SiteRow) (failed : List String) (timestamp : Nat)
    (max_failed_attempts : ℤ) : List SiteRow :=
  failed.foldl (fun d u => quarantineOne d u timestamp) db

/-- `SignalScout._reactivate_site`: set the row back to `active` with the new
confidence. -/
def reactivateSite (db : List SiteRow) (url : String) (confidence : ℤ)
    (timestamp : Nat) : List SiteRow :=
  db.map fun r =>
    if r.url = url then
      { r with
        status := "active"
        is_active := true
        confidence_score := confidence
        last_verified := timestamp }
    else r

/-- `SignalScout._reverify_quarantined_sites`: re-verify each quarantined row (the
verifier is modelled as a confidence function); reactivate on success, do nothing on
failure. -/
def reverifyQuarantinedSites (db : List SiteRow) (verify : String → ℤ) (threshold : ℤ)
    (timestamp : Nat) : List SiteRow :=
  let quarantined := (db.filter fun r => r.status = "quarantined").map (·.url)
  quarantined.foldl
    (fun d u => if threshold ≤ verify u then reactivateSite d u (verify u) timestamp else d)
    db

/-- A pre-migration row: the `sites` schema before the V2 upgrade added `status`. -/
structure SiteRowV1 where
  name : JValue
  url : String
  source : String
  last_verified : Nat
  confidence_score : ℤ
  is_active : Bool

/-- The V2 schema migration of `SignalScout._ensure_database`: add `status` with
default `active`, then backfill `active`/`inactive` from `is_active`. -/
def migrateAddStatus (db : List SiteRowV1) : List SiteRow :=
  let withDefault : List SiteRow := db.map fun r =>
    { name := r.name
      url := r.url
      source := r.source
      last_verified := r.last_verified
      confidence_score := r.confidence_score
      is_active := r.is_active
      status := "active"
      llm_verified := none
      category := none
      llm_reasoning := none }
  let upd₁ := withDefault.map fun r =>
    if r.is_active = true then { r with status := "active" } else r
  let upd₂ := upd₁.map fun r =>
    if r.is_active = false then { r with status := "inactive" } else r
  upd₂

/-- The catalog invariant of claim C2. -/
def StatusInv (db : List SiteRow) : Prop :=
  ∀ r ∈ db, r.status = "active" ↔ r.is_active = true

theorem statusInv_foldl {α : Type} (l : List α) (f : List SiteRow → α → List SiteRow)
    (hf : ∀ d x, StatusInv d → StatusInv (f d x)) :
    ∀ db, StatusInv db → StatusInv (l.foldl f db) := by
  induction l with
  | nil => exact fun db h => h
  | cons x xs ih => exact fun db h => ih (f db x) (hf db x h)

theorem quarantineOne_inv (db : List SiteRow) (url : String) (ts : Nat)
    (h : StatusInv db) : StatusInv (quarantineOne db url ts) := by
  unfold quarantineOne
  split
  · exact h
  · split
    · intro r hr
      rcases List.mem_map.mp hr with ⟨r₀, hr₀, rfl⟩
      split
      · simp
      · exact h r₀ hr₀
    · split
      · intro r hr
        rcases List.mem_map.mp hr with ⟨r₀, hr₀, rfl⟩
        split
        · exact h r₀ hr₀
        · exact h r₀ hr₀
      · exact h

theorem reactivateSite_inv (db : List SiteRow) (url : String) (conf : ℤ) (ts : Nat)
    (h : StatusInv db) : StatusInv (reactivateSite db url conf ts) := by
  intro r hr
  rcases List.mem_map.mp hr with ⟨r₀, hr₀, rfl⟩
  split
  · simp
  · exact h r₀ hr₀

/-- Claim C2: after every catalog write — the V2 store of a verified site, the V4
enriched write, quarantining, reactivating, and the status-column migration — every
row satisfies `status = 'active' ⇔ is_active`: the migration establishes the invariant
from any pre-migration table, and each write preserves it. -/
theorem claim_C2_status_invariant :
    (∀ db : List SiteRowV1, StatusInv (migrateAddStatus db))
    ∧ (∀ (db : List SiteRow) (url : String) (conf thr : ℤ) (ts : Nat) (nm : String),
        StatusInv db → StatusInv (storeVerifiedSite db url conf thr ts nm))
    ∧ (∀ (db : List SiteRow) (url : String) (conf : ℤ) (ts : Nat) (nm : String)
        (llm : Option (List (String × JValue))),
        StatusInv db → StatusInv (writeUrlToDatabase db url conf ts nm llm))
    ∧ (∀ (db : List SiteRow) (failed : List String) (ts : Nat) (m : ℤ),
        StatusInv db → StatusInv (quarantineFailedSites db failed ts m))
    ∧ (∀ (db : List SiteRow) (url : String) (conf : ℤ) (ts : Nat),
        StatusInv db → StatusInv (reactivateSite db url conf ts)) := by
  refine ⟨?_, ?_, ?_, ?_, ?_⟩
  · intro db r hr
    unfold migrateAddStatus at hr
    rcases List.mem_map.mp hr with ⟨r₁, hr₁, rfl⟩
    rcases List.mem_map.mp hr₁ with ⟨r₂, hr₂, rfl⟩
    rcases List.mem_map.mp hr₂ with ⟨r₃, _, rfl⟩
    by_cases hact : r₃.is_active = true
    · simp [hact]
    · simp [hact]
  · intro db url conf thr ts nm h
    unfold storeVerifiedSite
    dsimp only
    split
    · intro r hr
      rcases List.mem_map.mp hr with ⟨r₀, hr₀, rfl⟩
      split
      · by_cases hact : thr ≤ conf
        · simp [hact]
        · simp [hact]
      · exact h r₀ hr₀
    · intro r hr
      rcases List.mem_append.mp hr with hin | hnew
      · exact h r hin
      · rcases List.mem_singleton.mp hnew with rfl
        by_cases hact : thr ≤ conf
        · simp [hact]
        · simp [hact]
  · intro db url conf ts nm llm h
    have hup : ∀ (nmv : JValue) (llmv cat reas : Option JValue),
        StatusInv (writeUrlUpsert db url conf ts nmv llmv cat reas) := by
      intro nmv llmv cat reas
      unfold writeUrlUpsert
      split
      · intro r hr
        rcases List.mem_map.mp hr with ⟨r₀, hr₀, rfl⟩
        split
        · simp
        · exact h r₀ hr₀
      · intro r hr
        rcases List.mem_append.mp hr with hin | hnew
        · exact h r hin
        · rcases List.mem_singleton.mp hnew with rfl
          simp
    unfold writeUrlToDatabase
    cases llm with
    | none => exact hup _ _ _ _
    | some m =>
      dsimp only
      by_cases hc : (!m.isEmpty && !isUnknownStr (alGet m "service_name")) = true
      · rw [if_pos hc]
        cases halg : alGet m "service_name" with
        | none => exact h
        | some v => exact hup _ _ _ _
      · rw [if_neg hc]
        exact hup _ _ _ _
  · intro db failed ts m h
    exact statusInv_foldl failed _ (fun d u => quarantineOne_inv d u ts) db h
  · intro db url conf ts h
    exact reactivateSite_inv db url conf ts h

/-- Claim C2 witness: the invariant theorem applied to a concrete migration and a
concrete quarantine transition. -/
theorem claim_C2_witness :
    StatusInv (migrateAddStatus
      [{ name := JValue.str "A", url := "https://a.io", source := "scout_discovery",
         last_verified := 0, confidence_score := 60, is_active := true }])
    ∧ StatusInv (quarantineFailedSites (migrateAddStatus
      [{ name := JValue.str "A", url := "https://a.io", source := "scout_discovery",
         last_verified := 0, confidence_score := 60, is_active := true }])
      ["https://a.io"] 1 3) :=
  ⟨claim_C2_status_invariant.1 _,
   claim_C2_status_invariant.2.2.2.1 _ ["https://a.io"] 1 3
     (claim_C2_status_invariant.1 _)⟩

/-- A quarantined catalog row. -/
def quarantinedRow : SiteRow :=
  { name := JValue.str "X", url := "https://x.io", source := "scout_discovery",
    last_verified := 0, confidence_score := 40, is_active := false,
    status := "quarantined", llm_verified := none, category := none,
    llm_reasoning := none }

/-- Claim C6: there is no per-row failure counter. Three consecutive failed
re-verifications of a quarantined row leave it entirely unchanged — still
`quarantined`, never `inactive`; `_quarantine_failed_sites` is independent of the
configured `max_failed_attempts` (read but never used) and does not touch a
quarantined row at all (its lookup requires `is_active = 1`); only the reactivation
half of the claim holds: a passing re-verification restores
`status = 'active', is_active = true` with the new confidence. -/
theorem claim_C6_failure_counter_missing :
    reverifyQuarantinedSites (reverifyQuarantinedSites (reverifyQuarantinedSites
        [quarantinedRow] (fun _ => 0) 50 1) (fun _ => 0) 50 2) (fun _ => 0) 50 3
      = [quarantinedRow]
    ∧ (∀ (m₁ m₂ : ℤ) (db : List SiteRow) (failed : List String) (ts : Nat),
        quarantineFailedSites db failed ts m₁ = quarantineFailedSites db failed ts m₂)
    ∧ quarantineFailedSites [quarantinedRow] ["https://x.io"] 9 3 = [quarantinedRow]
    ∧ (reverifyQuarantinedSites [quarantinedRow] (fun _ => 63) 50 9).map
        (fun r => (r.status, r.is_active, r.confidence_score, r.last_verified))
      = [("active", true, (63 : ℤ), 9)] :=
  ⟨rfl, fun _ _ _ _ _ => rfl, rfl, rfl⟩

end Sideline
